import Mathlib

/-!
# rocSOLVER host wrappers: `geqrf_batched` and `gebd2_strided_batched`

A shallow embedding of the two host-side wrappers

* `rocsolver_geqrf_batched_impl`  (`rocsolver/library/src/lapack/roclapack_geqrf_batched.cpp`)
* `rocsolver_gebd2_strided_batched_impl` (`library/src/lapack/roclapack_gebd2_strided_batched.cpp`)

Both wrappers are straight-line code with early returns around calls to collaborators
(the workspace planner `*_getMemorySize`, the accelerator runtime, the factorization
template).  The collaborators are not part of the wrappers; they are taken as parameters
(an environment of functions), and every call a wrapper makes is recorded, in program
order, in a trace of events.  A wrapper is then a pure function from its arguments to the
returned status and the trace.

Conventions: a pointer or handle is a natural number, `0` being the null pointer;
`rocblas_int` and `rocblas_stride` values are integers (the wrappers only compare them,
so no overflow can occur); `size_t` values are natural numbers, reduced modulo `2^64`
where the wrapper multiplies.
-/

namespace RocSolver

/-! ## Data model -/

/-- Modelled from the spec: the enumeration `rocblas_status` is declared in the rocBLAS
headers, which are not among the sources.  The spec names the values invalid-handle,
invalid-pointer, invalid-size, memory-error and success; the wrappers also use
`rocblas_status_continue`.  Every further value a collaborator may return is
`rocblas_status_other code`. -/
inductive rocblas_status where
  | rocblas_status_success
  | rocblas_status_invalid_handle
  | rocblas_status_invalid_pointer
  | rocblas_status_invalid_size
  | rocblas_status_memory_error
  | rocblas_status_continue
  | rocblas_status_other (code : Nat)
  deriving DecidableEq

open rocblas_status

/-- The element types `T` the wrappers are instantiated with by the C entry points
(`s`, `d`, `c`, `z`). -/
inductive ElemType where
  | float
  | double
  | rocblas_float_complex
  | rocblas_double_complex
  deriving DecidableEq

/-- The value of `sizeof(T)` in bytes. -/
def ElemType.sizeof : ElemType → Nat
  | .float => 4
  | .double => 8
  | .rocblas_float_complex => 8
  | .rocblas_double_complex => 16

/-- The modulus of `size_t` arithmetic. -/
def SIZE_T_MOD : Nat := 2 ^ 64

/-- The five sizes written by `rocsolver_geqrf_getMemorySize`. -/
structure GeqrfSizes where
  size_1 : Nat
  size_2 : Nat
  size_3 : Nat
  size_4 : Nat
  size_5 : Nat
  deriving DecidableEq

/-- The three sizes written by `rocsolver_gebd2_getMemorySize`. -/
structure Gebd2Sizes where
  size_scalars : Nat
  size_work_workArr : Nat
  size_Abyx_norms : Nat
  deriving DecidableEq

/-- The argument list of one call of `rocsolver_geqrf_template<true,false,T>`. -/
structure GeqrfTemplateArgs where
  handle : Nat
  m : Int
  n : Int
  A : Nat
  shiftA : Int
  lda : Int
  strideA : Int
  ipiv : Nat
  stridep : Int
  batch_count : Int
  scalars : Nat
  work : Nat
  workArr : Nat
  diag : Nat
  trfact : Nat
  deriving DecidableEq

/-- The argument list of one call of `rocsolver_gebd2_gebrd_argCheck`. -/
structure Gebd2ArgCheckArgs where
  handle : Nat
  m : Int
  n : Int
  lda : Int
  A : Nat
  D : Nat
  E : Nat
  tauq : Nat
  taup : Nat
  batch_count : Int
  deriving DecidableEq

/-- The argument list of one call of `rocsolver_gebd2_template<S, T>`. -/
structure Gebd2TemplateArgs where
  handle : Nat
  m : Int
  n : Int
  A : Nat
  shiftA : Int
  lda : Int
  strideA : Int
  D : Nat
  strideD : Int
  E : Nat
  strideE : Int
  tauq : Nat
  strideQ : Int
  taup : Nat
  strideP : Int
  batch_count : Int
  scalars : Nat
  work_workArr : Nat
  Abyx_norms : Nat
  deriving DecidableEq

/-- One observable step of a wrapper: a call to a collaborator, or a store into the
host vector `sca`. -/
inductive Event where
  /-- The entry logging `ROCSOLVER_ENTER_TOP("gebd2_strided_batched", "-m", m, "-n", n,
  "--lda", lda, "--bsa", strideA, "--bsp", strideP, "--batch", batch_count)`. -/
  | ROCSOLVER_ENTER_TOP (m n lda strideA strideP batch_count : Int)
  /-- The call `rocsolver_geqrf_getMemorySize<T,true>(m, n, batch_count, ...)` and the sizes
  it wrote. -/
  | rocsolver_geqrf_getMemorySize (T : ElemType) (m n batch_count : Int) (sizes : GeqrfSizes)
  /-- The call `hipMalloc(&p, size)`, with the value `ptr` that `p` holds afterwards. -/
  | hipMalloc (size : Nat) (ptr : Nat)
  /-- The store `sca[idx] = val` on a host vector of `len` elements. -/
  | sca_store (len idx : Nat) (val : Int)
  /-- The call `hipMemcpy(dst, sca.data(), bytes, hipMemcpyHostToDevice)` with the contents
  of `sca` and the returned `hipError_t`. -/
  | hipMemcpy (dst : Nat) (src : List Int) (bytes : Nat) (err : Nat)
  /-- One call of `rocsolver_geqrf_template`. -/
  | rocsolver_geqrf_template (args : GeqrfTemplateArgs)
  /-- The call `hipFree(ptr)`. -/
  | hipFree (ptr : Nat)
  /-- One call of `rocsolver_gebd2_gebrd_argCheck` and the status it returned. -/
  | rocsolver_gebd2_gebrd_argCheck (args : Gebd2ArgCheckArgs) (st : rocblas_status)
  /-- The call `rocsolver_gebd2_getMemorySize<T,false>(m, n, batch_count, ...)` and the sizes
  it wrote. -/
  | rocsolver_gebd2_getMemorySize (T : ElemType) (m n batch_count : Int) (sizes : Gebd2Sizes)
  /-- The call `rocblas_is_device_memory_size_query(handle)` and its answer. -/
  | rocblas_is_device_memory_size_query (handle : Nat) (answer : Bool)
  /-- The call `rocblas_set_optimal_device_memory_size(handle, s1, s2, s3)`. -/
  | rocblas_set_optimal_device_memory_size (handle : Nat) (s1 s2 s3 : Nat)
  /-- The declaration `rocblas_device_malloc mem(handle, s1, s2, s3)`; `ok` is the truth value
  of `mem`. -/
  | rocblas_device_malloc (handle : Nat) (s1 s2 s3 : Nat) (ok : Bool)
  /-- The call `init_scalars(handle, (T*)scalars)`. -/
  | init_scalars (handle : Nat) (scalars : Nat)
  /-- One call of `rocsolver_gebd2_template`. -/
  | rocsolver_gebd2_template (args : Gebd2TemplateArgs)
  deriving DecidableEq

/-- What a call of a wrapper yields: the returned status and the collaborator calls made. -/
structure Result where
  status : rocblas_status
  trace : List Event
  deriving DecidableEq

/-! ### Classification of events -/

/-- The event is a call of an argument checker. -/
def Event.isArgCheck : Event → Bool
  | .rocsolver_gebd2_gebrd_argCheck _ _ => true
  | _ => false

/-- The event computes workspace sizes, asks for the query mode or registers sizes. -/
def Event.isSizing : Event → Bool
  | .rocsolver_geqrf_getMemorySize _ _ _ _ _ => true
  | .rocsolver_gebd2_getMemorySize _ _ _ _ _ => true
  | .rocblas_is_device_memory_size_query _ _ => true
  | .rocblas_set_optimal_device_memory_size _ _ _ _ => true
  | _ => false

/-- The event is an attempt to allocate accelerator memory. -/
def Event.isAlloc : Event → Bool
  | .hipMalloc _ _ => true
  | .rocblas_device_malloc _ _ _ _ _ => true
  | _ => false

/-- The event writes an accelerator buffer from the host (scalars initialisation). -/
def Event.isScalarInit : Event → Bool
  | .hipMemcpy _ _ _ _ => true
  | .init_scalars _ _ => true
  | _ => false

/-- The event releases accelerator memory. -/
def Event.isFree : Event → Bool
  | .hipFree _ => true
  | _ => false

/-- The event is an execution of a factorization template. -/
def Event.isTemplate : Event → Bool
  | .rocsolver_geqrf_template _ => true
  | .rocsolver_gebd2_template _ => true
  | _ => false

/-- The event asks for the size-query mode of the handle or registers sizes with it. -/
def Event.isSizeQuery : Event → Bool
  | .rocblas_is_device_memory_size_query _ _ => true
  | .rocblas_set_optimal_device_memory_size _ _ _ _ => true
  | _ => false

/-- The workspace sizes an event asks the runtime for (allocation or size registration). -/
def Event.requestedSizes : Event → List Nat
  | .hipMalloc size _ => [size]
  | .rocblas_set_optimal_device_memory_size _ s1 s2 s3 => [s1, s2, s3]
  | .rocblas_device_malloc _ s1 s2 s3 _ => [s1, s2, s3]
  | _ => []

/-- All workspace sizes requested along a trace, in program order. -/
def requestedSizes (tr : List Event) : List Nat :=
  tr.flatMap Event.requestedSizes

/-! ## `rocsolver_geqrf_batched_impl` -/

/-- The collaborators of `rocsolver_geqrf_batched_impl`, none of which is defined in the
wrapper's source file. -/
structure GeqrfEnv where
  /-- The planner `rocsolver_geqrf_getMemorySize<T,true>(m, n, batch_count, &size_1, ...,
  &size_5)`. -/
  getMemorySize : ElemType → Int → Int → Int → GeqrfSizes
  /-- The value left in the pointer variable by the `k`-th `hipMalloc` of the call
  (`k = 0` for `scalars`, ..., `4` for `trfact`) when asked for `size` bytes. -/
  hipMalloc : Nat → Nat → Nat
  /-- The `hipError_t` returned by `hipMemcpy(dst, src, bytes, hipMemcpyHostToDevice)`;
  `0` is `hipSuccess`. -/
  hipMemcpy : Nat → List Int → Nat → Nat
  /-- The status `RETURN_IF_HIP_ERROR` returns for a `hipError_t` other than `hipSuccess`. -/
  get_rocblas_status_for_hip_status : Nat → rocblas_status
  /-- The status returned by `rocsolver_geqrf_template<true,false,T>`. -/
  template : ElemType → GeqrfTemplateArgs → rocblas_status
  /-- The runtime's `rocblas_is_device_memory_size_query(handle)`; the geqrf wrapper never
  calls it. -/
  is_device_memory_size_query : Nat → Bool

/-- Lines 13-22 of `roclapack_geqrf_batched.cpp`: the null-handle test and the argument
checking.  `some st` is an early `return st`, `none` means execution continues at line 24. -/
def geqrf_batched_validation (handle : Nat) (m n : Int) (A : Nat) (lda : Int) (ipiv : Nat)
    (batch_count : Int) : Option rocblas_status :=
  if handle = 0 then
    some rocblas_status_invalid_handle
  else if A = 0 ∨ ipiv = 0 then
    some rocblas_status_invalid_pointer
  else if m < 0 ∨ n < 0 ∨ lda < m ∨ batch_count < 0 then
    some rocblas_status_invalid_size
  else
    none

/-- The host vector `sca` after lines 46-49: `size_1` value-initialised elements, then the
stores `sca[0] = -1; sca[1] = 0; sca[2] = 1`.  (A store past the end leaves the list as it
is; the stores are also recorded, with the length, in the trace.) -/
def geqrf_sca (size_1 : Nat) : List Int :=
  (((List.replicate size_1 (0 : Int)).set 0 (-1)).set 1 0).set 2 1

/-- The five workspace pointers declared on line 35. -/
structure GeqrfWorkspace where
  scalars : Nat
  work : Nat
  workArr : Nat
  diag : Nat
  trfact : Nat
  deriving DecidableEq

/-- Lines 36-40: the five `hipMalloc` calls, in program order. -/
def geqrf_allocate (env : GeqrfEnv) (sz : GeqrfSizes) : GeqrfWorkspace :=
  ⟨env.hipMalloc 0 sz.size_1, env.hipMalloc 1 sz.size_2, env.hipMalloc 2 sz.size_3,
    env.hipMalloc 3 sz.size_4, env.hipMalloc 4 sz.size_5⟩

/-- Line 41: the condition under which the wrapper returns `rocblas_status_memory_error`. -/
def geqrf_allocation_failed (sz : GeqrfSizes) (w : GeqrfWorkspace) : Prop :=
  w.scalars = 0 ∨ (sz.size_2 ≠ 0 ∧ w.work = 0) ∨ (sz.size_3 ≠ 0 ∧ w.workArr = 0)
    ∨ (sz.size_4 ≠ 0 ∧ w.diag = 0) ∨ (sz.size_5 ≠ 0 ∧ w.trfact = 0)

instance (sz : GeqrfSizes) (w : GeqrfWorkspace) : Decidable (geqrf_allocation_failed sz w) := by
  unfold geqrf_allocation_failed
  infer_instance

/-- The events of lines 32-40: the planner call and the five allocations. -/
def geqrf_allocation_trace (T : ElemType) (m n batch_count : Int) (sz : GeqrfSizes)
    (w : GeqrfWorkspace) : List Event :=
  [ Event.rocsolver_geqrf_getMemorySize T m n batch_count sz,
    Event.hipMalloc sz.size_1 w.scalars,
    Event.hipMalloc sz.size_2 w.work,
    Event.hipMalloc sz.size_3 w.workArr,
    Event.hipMalloc sz.size_4 w.diag,
    Event.hipMalloc sz.size_5 w.trfact ]

/-- Lines 24-71 of `roclapack_geqrf_batched.cpp`: memory management, scalar constants,
execution and release. -/
def geqrf_batched_execution (env : GeqrfEnv) (T : ElemType) (handle : Nat) (m n : Int)
    (A : Nat) (lda : Int) (ipiv : Nat) (stridep : Int) (batch_count : Int) : Result :=
  let strideA : Int := 0
  let sz := env.getMemorySize T m n batch_count
  let w := geqrf_allocate env sz
  let trAlloc := geqrf_allocation_trace T m n batch_count sz w
  if geqrf_allocation_failed sz w then
    ⟨rocblas_status_memory_error, trAlloc⟩
  else
    let sca := geqrf_sca sz.size_1
    let bytes := (T.sizeof * sz.size_1) % SIZE_T_MOD
    let err := env.hipMemcpy w.scalars sca bytes
    let trCopy : List Event :=
      trAlloc ++
      [ Event.sca_store sz.size_1 0 (-1),
        Event.sca_store sz.size_1 1 0,
        Event.sca_store sz.size_1 2 1,
        Event.hipMemcpy w.scalars sca bytes err ]
    if err ≠ 0 then
      ⟨env.get_rocblas_status_for_hip_status err, trCopy⟩
    else
      let args : GeqrfTemplateArgs :=
        ⟨handle, m, n, A, 0, lda, strideA, ipiv, stridep, batch_count,
          w.scalars, w.work, w.workArr, w.diag, w.trfact⟩
      let status := env.template T args
      ⟨status,
        trCopy ++
        [ Event.rocsolver_geqrf_template args,
          Event.hipFree w.scalars,
          Event.hipFree w.work,
          Event.hipFree w.workArr,
          Event.hipFree w.diag,
          Event.hipFree w.trfact ]⟩

/-- The function `rocsolver_geqrf_batched_impl<T>` of `roclapack_geqrf_batched.cpp`. -/
def rocsolver_geqrf_batched_impl (env : GeqrfEnv) (T : ElemType) (handle : Nat) (m n : Int)
    (A : Nat) (lda : Int) (ipiv : Nat) (stridep : Int) (batch_count : Int) : Result :=
  match geqrf_batched_validation handle m n A lda ipiv batch_count with
  | some st => ⟨st, []⟩
  | none => geqrf_batched_execution env T handle m n A lda ipiv stridep batch_count

/-! ## `rocsolver_gebd2_strided_batched_impl` -/

/-- The collaborators of `rocsolver_gebd2_strided_batched_impl`, none of which is defined
in the wrapper's source file. -/
structure Gebd2Env where
  /-- The status returned by `rocsolver_gebd2_gebrd_argCheck`. -/
  argCheck : Gebd2ArgCheckArgs → rocblas_status
  /-- The planner `rocsolver_gebd2_getMemorySize<T,false>(m, n, batch_count, &size_scalars,
  &size_work_workArr, &size_Abyx_norms)`. -/
  getMemorySize : ElemType → Int → Int → Int → Gebd2Sizes
  /-- The runtime's `rocblas_is_device_memory_size_query(handle)`. -/
  is_device_memory_size_query : Nat → Bool
  /-- The status returned by `rocblas_set_optimal_device_memory_size(handle, s1, s2, s3)`. -/
  set_optimal_device_memory_size : Nat → Nat → Nat → Nat → rocblas_status
  /-- The object `rocblas_device_malloc mem(handle, s1, s2, s3)`: `none` when `!mem`,
  otherwise the pointers `mem[0]`, `mem[1]`, `mem[2]`. -/
  device_malloc : Nat → Nat → Nat → Nat → Option (Nat × Nat × Nat)
  /-- The status returned by `rocsolver_gebd2_template<S, T>`. -/
  template : ElemType → Gebd2TemplateArgs → rocblas_status

/-- The function `rocsolver_gebd2_strided_batched_impl<S, T>` of
`roclapack_gebd2_strided_batched.cpp` (the real type `S` is determined by `T`). -/
def rocsolver_gebd2_strided_batched_impl (env : Gebd2Env) (T : ElemType) (handle : Nat)
    (m n : Int) (A : Nat) (lda strideA : Int) (D : Nat) (strideD : Int) (E : Nat)
    (strideE : Int) (tauq : Nat) (strideQ : Int) (taup : Nat) (strideP : Int)
    (batch_count : Int) : Result :=
  let trEnter : List Event := [Event.ROCSOLVER_ENTER_TOP m n lda strideA strideP batch_count]
  if handle = 0 then
    ⟨rocblas_status_invalid_handle, trEnter⟩
  else
    let chk : Gebd2ArgCheckArgs := ⟨handle, m, n, lda, A, D, E, tauq, taup, batch_count⟩
    let st := env.argCheck chk
    let trCheck := trEnter ++ [Event.rocsolver_gebd2_gebrd_argCheck chk st]
    if st ≠ rocblas_status_continue then
      ⟨st, trCheck⟩
    else
      let shiftA : Int := 0
      let sz := env.getMemorySize T m n batch_count
      let query := env.is_device_memory_size_query handle
      let trSize := trCheck ++
        [ Event.rocsolver_gebd2_getMemorySize T m n batch_count sz,
          Event.rocblas_is_device_memory_size_query handle query ]
      if query then
        ⟨env.set_optimal_device_memory_size handle sz.size_scalars sz.size_work_workArr
            sz.size_Abyx_norms,
          trSize ++
          [ Event.rocblas_set_optimal_device_memory_size handle sz.size_scalars
              sz.size_work_workArr sz.size_Abyx_norms ]⟩
      else
        match env.device_malloc handle sz.size_scalars sz.size_work_workArr
            sz.size_Abyx_norms with
        | none =>
          ⟨rocblas_status_memory_error,
            trSize ++
            [ Event.rocblas_device_malloc handle sz.size_scalars sz.size_work_workArr
                sz.size_Abyx_norms false ]⟩
        | some (scalars, work_workArr, Abyx_norms) =>
          let trMem := trSize ++
            [ Event.rocblas_device_malloc handle sz.size_scalars sz.size_work_workArr
                sz.size_Abyx_norms true ]
          let trInit : List Event :=
            if sz.size_scalars > 0 then [Event.init_scalars handle scalars] else []
          let args : Gebd2TemplateArgs :=
            ⟨handle, m, n, A, shiftA, lda, strideA, D, strideD, E, strideE, tauq, strideQ,
              taup, strideP, batch_count, scalars, work_workArr, Abyx_norms⟩
          ⟨env.template T args, trMem ++ trInit ++ [Event.rocsolver_gebd2_template args]⟩

/-! ## Concrete collaborators

The environments below fix one behaviour of the collaborators each; they are used to
evaluate the wrappers on concrete calls. -/

/-- An accelerator on which everything succeeds: the planner asks for 3 scalars and some
scratch space, every allocation returns a fresh non-null pointer, the copy succeeds and
the template reports success.  The handle `2` is in size-query mode. -/
def geqrfEnvOk : GeqrfEnv where
  getMemorySize := fun _ m n batch_count =>
    ⟨3, (m * n).toNat, batch_count.toNat, 0, 64⟩
  hipMalloc := fun k _ => 4096 + k
  hipMemcpy := fun _ _ _ => 0
  get_rocblas_status_for_hip_status := fun e => rocblas_status_other e
  template := fun _ _ => rocblas_status_success
  is_device_memory_size_query := fun h => decide (h = 2)

/-- An accelerator without free memory: every `hipMalloc` leaves a null pointer. -/
def geqrfEnvNoMem : GeqrfEnv where
  getMemorySize := fun _ m n batch_count =>
    ⟨3, (m * n).toNat, batch_count.toNat, 0, 64⟩
  hipMalloc := fun _ _ => 0
  hipMemcpy := fun _ _ _ => 0
  get_rocblas_status_for_hip_status := fun e => rocblas_status_other e
  template := fun _ _ => rocblas_status_success
  is_device_memory_size_query := fun h => decide (h = 2)

/-- An argument checker in the manner of the geqrf wrapper's own checks: sizes first, then
pointers, `rocblas_status_continue` otherwise.  (An example only: the real
`rocsolver_gebd2_gebrd_argCheck` is not among the sources.) -/
def exampleArgCheck (a : Gebd2ArgCheckArgs) : rocblas_status :=
  if a.m < 0 ∨ a.n < 0 ∨ a.lda < a.m ∨ a.batch_count < 0 then
    rocblas_status_invalid_size
  else if a.A = 0 ∨ a.D = 0 ∨ a.E = 0 ∨ a.tauq = 0 ∨ a.taup = 0 then
    rocblas_status_invalid_pointer
  else
    rocblas_status_continue

/-- An accelerator on which everything succeeds.  The handle `2` is in size-query mode,
where registering sizes reports `rocblas_status_other 9`. -/
def gebd2EnvOk : Gebd2Env where
  argCheck := exampleArgCheck
  getMemorySize := fun T m n batch_count =>
    ⟨3 * T.sizeof, (n * batch_count).toNat, (m * batch_count).toNat⟩
  is_device_memory_size_query := fun h => decide (h = 2)
  set_optimal_device_memory_size := fun _ _ _ _ => rocblas_status_other 9
  device_malloc := fun _ _ _ _ => some (4096, 8192, 12288)
  template := fun _ _ => rocblas_status_success

/-- An accelerator without free memory: `rocblas_device_malloc` always tests false. -/
def gebd2EnvNoMem : Gebd2Env where
  argCheck := exampleArgCheck
  getMemorySize := fun T m n batch_count =>
    ⟨3 * T.sizeof, (n * batch_count).toNat, (m * batch_count).toNat⟩
  is_device_memory_size_query := fun h => decide (h = 2)
  set_optimal_device_memory_size := fun _ _ _ _ => rocblas_status_other 9
  device_malloc := fun _ _ _ _ => none
  template := fun _ _ => rocblas_status_success

/-- An accelerator with room for the scalars only: the first `hipMalloc` of a call returns
a buffer, the other four leave a null pointer. -/
def geqrfEnvPartialMem : GeqrfEnv where
  getMemorySize := fun _ m n batch_count =>
    ⟨3, (m * n).toNat, batch_count.toNat, 0, 64⟩
  hipMalloc := fun k _ => if k = 0 then 4096 else 0
  hipMemcpy := fun _ _ _ => 0
  get_rocblas_status_for_hip_status := fun e => rocblas_status_other e
  template := fun _ _ => rocblas_status_success
  is_device_memory_size_query := fun h => decide (h = 2)

/-- An accelerator on which the allocations succeed and the host-to-device copy fails with
the `hipError_t` value `1`. -/
def geqrfEnvCopyFails : GeqrfEnv where
  getMemorySize := fun _ m n batch_count =>
    ⟨3, (m * n).toNat, batch_count.toNat, 0, 64⟩
  hipMalloc := fun k _ => 4096 + k
  hipMemcpy := fun _ _ _ => 1
  get_rocblas_status_for_hip_status := fun e => rocblas_status_other e
  template := fun _ _ => rocblas_status_success
  is_device_memory_size_query := fun h => decide (h = 2)

/-! ## Buffer ownership along a trace -/

/-- The buffer an event acquires: the non-null pointer a `hipMalloc` produced. -/
def Event.acquired : Event → Option Nat
  | .hipMalloc _ ptr => if ptr = 0 then none else some ptr
  | _ => none

/-- The buffer an event releases: the argument of a `hipFree`. -/
def Event.released : Event → Option Nat
  | .hipFree ptr => some ptr
  | _ => none

/-- The buffers acquired along a trace, in program order. -/
def acquiredBuffers (tr : List Event) : List Nat :=
  tr.filterMap Event.acquired

/-- The buffers released along a trace, in program order. -/
def releasedBuffers (tr : List Event) : List Nat :=
  tr.filterMap Event.released

/-! ## The test parameters of `ormtr_unmtr_gtest.cpp` -/

/-- The value of an `int` expression whose exact value is `x`: two's complement
wrap-around to 32 bits. -/
def int32_wrap (x : Int) : Int :=
  (x + 2 ^ 31) % 2 ^ 32 - 2 ^ 31

/-- Modelled from the spec: the struct `Arguments` is declared in a header of the test
clients that is not among the sources (the spec leaves the test harness out of scope).
Only the fields that `ormtr_setup_arguments` assigns are kept. -/
structure Arguments where
  transA_option : Char
  uplo_option : Char
  side_option : Char
  N : Int
  M : Int
  ldc : Int
  lda : Int
  timing : Int
  deriving DecidableEq

/-- The function `ormtr_setup_arguments` of `ormtr_unmtr_gtest.cpp`, on the two vectors of
the tuple.  Reading a vector past its end is undefined in the source; here it yields
`none`. -/
def ormtr_setup_arguments (size store : List Int) : Option Arguments := do
  let store3 ← store[3]?
  let transA_option : Char := if store3 = 0 then 'N' else (if store3 = 1 then 'T' else 'C')
  let store4 ← store[4]?
  let uplo_option : Char := if store4 = 0 then 'U' else 'L'
  let store2 ← store[2]?
  let side_option : Char := if store2 = 0 then 'L' else 'R'
  let N ← size[1]?
  let M ← size[0]?
  let store1 ← store[1]?
  let ldc := int32_wrap (M + int32_wrap (store1 * 10))
  let nq := if side_option = 'L' then M else N
  let lda := nq
  let store0 ← store[0]?
  let lda := int32_wrap (lda + int32_wrap (store0 * 10))
  let timing : Int := 0
  pure ⟨transA_option, uplo_option, side_option, N, M, ldc, lda, timing⟩

/-- The exact value `x` is representable as an `int` (32 bits, two's complement). -/
def fits_int32 (x : Int) : Prop :=
  -2 ^ 31 ≤ x ∧ x < 2 ^ 31

/-! ## Dense matrices and the elementary reflector application

The numerical routines (`larf`, `getf2`, ...) are only declared in
`rocsolver-functions.h`; their implementations are not among the sources.  They are
modelled from the spec (section 4) and from the documentation in the header, on matrices
given as functions of a 0-based row and column index. -/

/-- A dense matrix: the entry in row `i` and column `j` (0-based).  The column-major
storage with a leading dimension is not modelled. -/
abbrev Mat (α : Type) := Nat → Nat → α

/-- The values of `rocblas_side` that `larf` accepts. -/
inductive rocblas_side where
  | rocblas_side_left
  | rocblas_side_right
  deriving DecidableEq

/-- The sum `f 0 + f 1 + ... + f (len - 1)`, accumulated from the left starting at `0`. -/
def sum_upto {α : Type} [Zero α] [Add α] (len : Nat) (f : Nat → α) : α :=
  (List.range len).foldl (fun acc k => acc + f k) 0

/-- The element `i` of a Householder vector of `len` elements stored in `x` with increment
`incx`: consecutive elements are `|incx|` apart, and "if incx < 0, the elements of x are
used in reverse order". -/
def larf_x {α : Type} (x : Nat → α) (incx : Int) (len i : Nat) : α :=
  if 0 < incx then x (i * incx.toNat) else x ((len - 1 - i) * (-incx).toNat)

/-- Modelled from the spec: reflector application `larf` (spec 4.2 and the header
documentation of `rocsolver_slarf`); its implementation is not among the sources.
"Given side (left/right), size (m,n), vector v, scalar alpha and target matrix A,
computes A <- (I - alpha v v') A or A (I - alpha v v').  If alpha = 0, A is returned
unmodified and v is not read."  The arithmetic of the element type is a parameter. -/
def larf {α : Type} [Zero α] [Add α] [Sub α] [Mul α] [DecidableEq α]
    (side : rocblas_side) (m n : Nat) (x : Nat → α) (incx : Int) (alpha : α) (A : Mat α) :
    Mat α :=
  if alpha = 0 then
    A
  else
    match side with
    | .rocblas_side_left => fun i j =>
      if i < m ∧ j < n then
        A i j - alpha * larf_x x incx m i * sum_upto m (fun k => larf_x x incx m k * A k j)
      else A i j
    | .rocblas_side_right => fun i j =>
      if i < m ∧ j < n then
        A i j - alpha * sum_upto n (fun k => A i k * larf_x x incx n k) * larf_x x incx n j
      else A i j

/-! ## Unblocked LU factorization with partial pivoting -/

/-- The matrix `A` with the rows `r` and `s` interchanged across the full row extent. -/
def swap_rows {α : Type} (A : Mat α) (r s : Nat) : Mat α :=
  fun i j => if i = r then A s j else if i = s then A r j else A i j

/-- The search for the entry of maximum absolute value among `col k, ..., col (k + l)`;
among equal candidates the lowest index is taken. -/
def getf2_pivot_scan {α : Type} [LinearOrderedField α] (col : Nat → α) (k : Nat) : Nat → Nat
  | 0 => k
  | l + 1 =>
    if |col (getf2_pivot_scan col k l)| < |col (k + l + 1)| then k + l + 1
    else getf2_pivot_scan col k l

/-- Modelled from the spec: the pivot search of step `k` of the unblocked LU (spec 4.3),
"find the row in [k, m) with maximum absolute value in column k (partial pivoting)".
The spec leaves the choice among equal candidates open; the lowest row index is taken. -/
def getf2_find_pivot {α : Type} [LinearOrderedField α] (A : Mat α) (m k : Nat) : Nat :=
  getf2_pivot_scan (fun i => A i k) k (m - 1 - k)

/-- Modelled from the spec: the elimination of step `k` (spec 4.3), "eliminate below the
pivot via scaled row update": the rows `i` in `(k, m)` get the multiplier
`A i k / A k k` in column `k` and lose that multiple of row `k` in the columns `(k, n)`. -/
def getf2_eliminate {α : Type} [LinearOrderedField α] (A : Mat α) (m n k : Nat) : Mat α :=
  fun i j =>
    if k < i ∧ i < m then
      if j = k then A i k / A k k
      else if k < j ∧ j < n then A i j - A i k / A k k * A k j
      else A i j
    else A i j

/-- The data the LU factorization works on: the matrix (overwritten in place), the pivot
vector written so far (1-based row indices) and `info` (`0` while no zero pivot was met). -/
structure Getf2State (α : Type) where
  A : Mat α
  ipiv : List Nat
  info : Nat

/-- Modelled from the spec: step `k` of the unblocked LU with partial pivoting (spec 4.3);
the implementation of `getf2` is not among the sources.  "Find the row in [k, m) with
maximum absolute value in column k; if that maximum is exactly zero, record info = k+1
(1-based) if not already set, and continue without pivoting or scaling that column;
otherwise swap rows k and pivot-row across the full row extent, then eliminate below the
pivot via scaled row update.  Output: pivot[k] = pivot-row (1-based)." -/
def getf2_step {α : Type} [LinearOrderedField α] (m n k : Nat) (s : Getf2State α) :
    Getf2State α :=
  let p := getf2_find_pivot s.A m k
  if |s.A p k| = 0 then
    { A := s.A
      ipiv := s.ipiv ++ [p + 1]
      info := if s.info = 0 then k + 1 else s.info }
  else
    { A := getf2_eliminate (swap_rows s.A k p) m n k
      ipiv := s.ipiv ++ [p + 1]
      info := s.info }

/-- The state of the factorization of the `m`-by-`n` matrix `A` after the steps
`0, ..., k - 1`. -/
def getf2_iter {α : Type} [LinearOrderedField α] (m n : Nat) (A : Mat α) :
    Nat → Getf2State α
  | 0 => ⟨A, [], 0⟩
  | k + 1 => getf2_step m n k (getf2_iter m n A k)

/-- Modelled from the spec: the unblocked LU factorization `getf2` of an `m`-by-`n` matrix
(spec 4.3): the steps "for each column k from 0 to min(m,n)-1". -/
def getf2 {α : Type} [LinearOrderedField α] (m n : Nat) (A : Mat α) : Getf2State α :=
  getf2_iter m n A (min m n)

/-- The row interchanges of a pivot vector applied in order (the `LASWP` of the header):
row `i` is interchanged with row `ipiv[i]`, the entries of `ipiv` being 1-based, for
`i = start, start + 1, ...`. -/
def apply_interchanges {α : Type} (start : Nat) : List Nat → Mat α → Mat α
  | [], A => A
  | p :: ps, A => apply_interchanges (start + 1) ps (swap_rows A start (p - 1))

/-- The factor `L` stored in `A`: unit diagonal, the entries of `A` below it. -/
def getf2_L {α : Type} [LinearOrderedField α] (A : Mat α) : Mat α :=
  fun i t => if i = t then 1 else if t < i then A i t else 0

/-- The factor `U` stored in `A`: the entries of `A` on and above the diagonal. -/
def getf2_U {α : Type} [LinearOrderedField α] (A : Mat α) : Mat α :=
  fun t j => if t ≤ j then A t j else 0

/-- The column `k` of `A` is exactly zero in the rows `k, ..., m - 1`: the maximum
absolute value the pivot search of step `k` can find is zero. -/
def zero_pivot_column {α : Type} [LinearOrderedField α] (A : Mat α) (m k : Nat) : Prop :=
  ∀ i, k ≤ i → i < m → A i k = 0

/-- A singular 3-by-3 example: the first column is zero, and so is the last pivot column
once the second column has been eliminated. -/
def exampleSingular : Mat ℚ := fun i j =>
  match i, j with
  | 0, 1 => 1 | 0, 2 => 2
  | 1, 1 => 4 | 1, 2 => 3
  | 2, 1 => 2 | 2, 2 => 3 / 2
  | _, _ => 0

/-- A regular 3-by-3 example whose largest first-column entry is in the last row. -/
def exampleRegular : Mat ℚ := fun i j =>
  match i, j with
  | 0, 0 => 1 | 0, 1 => 2 | 0, 2 => 3
  | 1, 0 => 2 | 1, 1 => 1 | 1, 2 => 1
  | 2, 0 => 4 | 2, 1 => 4 | 2, 2 => 2
  | _, _ => 0

/-- The relation between the matrix `B` (the input with the interchanges done so far) and
the matrix `A` (the work matrix after `k` steps): the first `k` columns of `L` times the
first `k` rows of `U`, plus the trailing block that is still to be factored. -/
def lu_invariant {α : Type} [LinearOrderedField α] (m n k : Nat) (B A : Mat α) : Prop :=
  ∀ i, i < m → ∀ j, j < n →
    B i j = ∑ t ∈ Finset.range k, getf2_L A i t * getf2_U A t j
      + (if k ≤ i ∧ k ≤ j then A i j else 0)

/-! ## The test cases of `ormtr_unmtr_gtest.cpp` -/

/-- The table `store` of `ormtr_unmtr_gtest.cpp`: each entry is a `{lda, ldc, s, t, u}`. -/
def store : List (List Int) :=
  [ [-1, 0, 0, 0, 0],
    [0, -1, 0, 0, 0],
    [1, 1, 0, 0, 0],
    [1, 1, 0, 0, 1],
    [0, 0, 0, 0, 0],
    [0, 0, 0, 0, 1],
    [0, 0, 0, 1, 0],
    [0, 0, 0, 1, 1],
    [0, 0, 0, 2, 0],
    [0, 0, 0, 2, 1],
    [0, 0, 1, 0, 0],
    [0, 0, 1, 0, 1],
    [0, 0, 1, 1, 0],
    [0, 0, 1, 1, 1],
    [0, 0, 1, 2, 0],
    [0, 0, 1, 2, 1] ]

/-- The table `size_range` (checkin_lapack tests): each entry is a `{M, N}`. -/
def size_range : List (List Int) :=
  [ [0, 1], [1, 0], [-1, 1], [1, -1], [10, 30], [20, 5], [20, 20], [50, 50], [70, 40] ]

/-- The table `large_size_range` (daily_lapack tests): each entry is a `{M, N}`. -/
def large_size_range : List (List Int) :=
  [ [200, 150], [270, 270], [400, 400], [800, 500], [1500, 1000] ]

/-- The test functions `run_tests` may call. -/
inductive TestCall where
  /-- The call `testing_ormtr_unmtr_bad_arg<T>()`. -/
  | testing_ormtr_unmtr_bad_arg
  /-- The call `testing_ormtr_unmtr<T>(arg)`. -/
  | testing_ormtr_unmtr (arg : Arguments)
  deriving DecidableEq

/-- The function `ORMTR_UNMTR::run_tests<T>` on the parameter tuple `(size, store)`: the
test functions it calls, in program order (`none` when `ormtr_setup_arguments` reads a
vector past its end). -/
def ORMTR_UNMTR.run_tests (size store : List Int) : Option (List TestCall) := do
  let arg ← ormtr_setup_arguments size store
  let bad : List TestCall :=
    if arg.M = 0 ∧ arg.N = 1 ∧ arg.side_option = 'L' ∧ arg.transA_option = 'T'
        ∧ arg.uplo_option = 'U' then
      [TestCall.testing_ormtr_unmtr_bad_arg]
    else []
  pure (bad ++ [TestCall.testing_ormtr_unmtr arg])

/-- The parameter generator `Combine(ValuesIn(sizes), ValuesIn(stores))`: all pairs. -/
def Combine (sizes stores : List (List Int)) : List (List Int × List Int) :=
  sizes.flatMap (fun size => stores.map (fun st => (size, st)))

/-- The parameter tuples of the `checkin_lapack` instantiations. -/
def checkin_lapack : List (List Int × List Int) :=
  Combine size_range store

/-- The parameter tuples of the `daily_lapack` instantiations. -/
def daily_lapack : List (List Int × List Int) :=
  Combine large_size_range store

/-- The parameter tuple makes `run_tests` call the bad-argument test. -/
def runs_bad_arg_test (tup : List Int × List Int) : Bool :=
  match ORMTR_UNMTR.run_tests tup.1 tup.2 with
  | some calls => calls.contains TestCall.testing_ormtr_unmtr_bad_arg
  | none => false

/-! ## Scalars buffer of `rocsolver_geqrf_batched_impl` -/

/-- An accelerator where only the scalars are needed: the planner asks for 3 scalars and
nothing else, the first `hipMalloc` returns a buffer and the zero-size requests leave a
null pointer. -/
def geqrfEnvScalarsOnly : GeqrfEnv where
  getMemorySize := fun _ _ _ _ => ⟨3, 0, 0, 0, 0⟩
  hipMalloc := fun k _ => if k = 0 then 4096 else 0
  hipMemcpy := fun _ _ _ => 0
  get_rocblas_status_for_hip_status := fun e => rocblas_status_other e
  template := fun _ _ => rocblas_status_success
  is_device_memory_size_query := fun h => decide (h = 2)

/-- An accelerator whose planner asks for nothing at all; `hipMalloc` of zero bytes leaves
a null pointer. -/
def geqrfEnvZeroSizes : GeqrfEnv where
  getMemorySize := fun _ _ _ _ => ⟨0, 0, 0, 0, 0⟩
  hipMalloc := fun _ size => if size = 0 then 0 else 4096
  hipMemcpy := fun _ _ _ => 0
  get_rocblas_status_for_hip_status := fun e => rocblas_status_other e
  template := fun _ _ => rocblas_status_success
  is_device_memory_size_query := fun h => decide (h = 2)

/-- The event is a store into the host vector `sca`. -/
def Event.isScaStore : Event → Bool
  | .sca_store _ _ _ => true
  | _ => false

/-- The event is not a store past the end of the host vector: for `sca[idx] = val` on a
vector of `len` elements, `idx < len`. -/
def Event.storeInBounds : Event → Bool
  | .sca_store len idx _ => decide (idx < len)
  | _ => true

/-- The number of bytes a trace allocated for the buffer `ptr` (first `hipMalloc` that
produced it). -/
def allocatedBytes (tr : List Event) (ptr : Nat) : Option Nat :=
  tr.findSome? (fun e =>
    match e with
    | .hipMalloc size p => if p = ptr then some size else none
    | _ => none)

/-- The number of bytes a trace copied from the host into the buffer `ptr` (first
`hipMemcpy` with that destination). -/
def copiedBytes (tr : List Event) (ptr : Nat) : Option Nat :=
  tr.findSome? (fun e =>
    match e with
    | .hipMemcpy dst _ bytes _ => if dst = ptr then some bytes else none
    | _ => none)

/-- The validation of the geqrf wrapper rejects a null handle first. -/
lemma geqrf_batched_validation_null_handle (m n : Int) (A : Nat) (lda : Int) (ipiv : Nat)
    (batch_count : Int) :
    geqrf_batched_validation 0 m n A lda ipiv batch_count
      = some rocblas_status_invalid_handle := by
  simp [geqrf_batched_validation]

/-- With a handle, a missing buffer is rejected whatever the sizes are. -/
lemma geqrf_batched_validation_null_pointer (handle : Nat) (m n : Int) (A : Nat) (lda : Int)
    (ipiv : Nat) (batch_count : Int) (hh : handle ≠ 0) (hp : A = 0 ∨ ipiv = 0) :
    geqrf_batched_validation handle m n A lda ipiv batch_count
      = some rocblas_status_invalid_pointer := by
  simp [geqrf_batched_validation, hh, hp]

/-- With a handle and both buffers, a bad size is rejected. -/
lemma geqrf_batched_validation_bad_size (handle : Nat) (m n : Int) (A : Nat) (lda : Int)
    (ipiv : Nat) (batch_count : Int) (hh : handle ≠ 0) (hA : A ≠ 0) (hi : ipiv ≠ 0)
    (hs : m < 0 ∨ n < 0 ∨ lda < m ∨ batch_count < 0) :
    geqrf_batched_validation handle m n A lda ipiv batch_count
      = some rocblas_status_invalid_size := by
  simp [geqrf_batched_validation, hh, hA, hi, hs]

/-- The validation passes exactly the calls with a handle, both buffers and good sizes. -/
lemma geqrf_batched_validation_eq_none_iff (handle : Nat) (m n : Int) (A : Nat) (lda : Int)
    (ipiv : Nat) (batch_count : Int) :
    geqrf_batched_validation handle m n A lda ipiv batch_count = none ↔
      handle ≠ 0 ∧ A ≠ 0 ∧ ipiv ≠ 0 ∧ 0 ≤ m ∧ 0 ≤ n ∧ m ≤ lda ∧ 0 ≤ batch_count := by
  unfold geqrf_batched_validation
  split_ifs with h1 h2 h3
  · simp [h1]
  · simp only [false_iff, reduceCtorEq]
    rcases h2 with h2 | h2 <;> simp [h2]
  · simp only [false_iff, reduceCtorEq]
    rcases h3 with h3 | h3 | h3 | h3 <;> intro h <;> omega
  · simp only [true_iff]
    push_neg at h2 h3
    exact ⟨h1, h2.1, h2.2, h3.1, h3.2.1, h3.2.2.1, h3.2.2.2⟩

/-- A call that passes the validation is the execution part of the wrapper. -/
lemma rocsolver_geqrf_batched_impl_of_valid (env : GeqrfEnv) (T : ElemType) (handle : Nat)
    (m n : Int) (A : Nat) (lda : Int) (ipiv : Nat) (stridep batch_count : Int)
    (hv : geqrf_batched_validation handle m n A lda ipiv batch_count = none) :
    rocsolver_geqrf_batched_impl env T handle m n A lda ipiv stridep batch_count
      = geqrf_batched_execution env T handle m n A lda ipiv stridep batch_count := by
  simp [rocsolver_geqrf_batched_impl, hv]

/-- The execution part always starts with the planner call and the five allocations. -/
lemma geqrf_batched_execution_trace_starts (env : GeqrfEnv) (T : ElemType) (handle : Nat)
    (m n : Int) (A : Nat) (lda : Int) (ipiv : Nat) (stridep batch_count : Int) :
    ∃ rest,
      (geqrf_batched_execution env T handle m n A lda ipiv stridep batch_count).trace
        = geqrf_allocation_trace T m n batch_count (env.getMemorySize T m n batch_count)
            (geqrf_allocate env (env.getMemorySize T m n batch_count)) ++ rest := by
  unfold geqrf_batched_execution
  simp only
  split_ifs
  · exact ⟨[], by simp⟩
  · exact ⟨_, by simp only [List.append_assoc]; rfl⟩
  · exact ⟨_, by simp only [List.append_assoc]; rfl⟩

/-- When the allocation check of line 41 fails, the execution part returns memory-error
right after the allocations. -/
lemma geqrf_batched_execution_of_allocation_failed (env : GeqrfEnv) (T : ElemType)
    (handle : Nat) (m n : Int) (A : Nat) (lda : Int) (ipiv : Nat) (stridep batch_count : Int)
    (hf : geqrf_allocation_failed (env.getMemorySize T m n batch_count)
      (geqrf_allocate env (env.getMemorySize T m n batch_count))) :
    geqrf_batched_execution env T handle m n A lda ipiv stridep batch_count
      = ⟨rocblas_status_memory_error,
          geqrf_allocation_trace T m n batch_count (env.getMemorySize T m n batch_count)
            (geqrf_allocate env (env.getMemorySize T m n batch_count))⟩ := by
  unfold geqrf_batched_execution
  simp only [hf, if_true]

/-- When the allocation check passes and the scalars copy succeeds, the execution part
runs the template once, frees the five buffers and returns the template's status. -/
lemma geqrf_batched_execution_of_copy_ok (env : GeqrfEnv) (T : ElemType)
    (handle : Nat) (m n : Int) (A : Nat) (lda : Int) (ipiv : Nat) (stridep batch_count : Int)
    (hf : ¬ geqrf_allocation_failed (env.getMemorySize T m n batch_count)
      (geqrf_allocate env (env.getMemorySize T m n batch_count)))
    (hc : env.hipMemcpy (geqrf_allocate env (env.getMemorySize T m n batch_count)).scalars
      (geqrf_sca (env.getMemorySize T m n batch_count).size_1)
      ((T.sizeof * (env.getMemorySize T m n batch_count).size_1) % SIZE_T_MOD) = 0) :
    geqrf_batched_execution env T handle m n A lda ipiv stridep batch_count
      = ⟨env.template T
            ⟨handle, m, n, A, 0, lda, 0, ipiv, stridep, batch_count,
              (geqrf_allocate env (env.getMemorySize T m n batch_count)).scalars,
              (geqrf_allocate env (env.getMemorySize T m n batch_count)).work,
              (geqrf_allocate env (env.getMemorySize T m n batch_count)).workArr,
              (geqrf_allocate env (env.getMemorySize T m n batch_count)).diag,
              (geqrf_allocate env (env.getMemorySize T m n batch_count)).trfact⟩,
          geqrf_allocation_trace T m n batch_count (env.getMemorySize T m n batch_count)
              (geqrf_allocate env (env.getMemorySize T m n batch_count))
            ++ [ Event.sca_store (env.getMemorySize T m n batch_count).size_1 0 (-1),
                 Event.sca_store (env.getMemorySize T m n batch_count).size_1 1 0,
                 Event.sca_store (env.getMemorySize T m n batch_count).size_1 2 1,
                 Event.hipMemcpy
                   (geqrf_allocate env (env.getMemorySize T m n batch_count)).scalars
                   (geqrf_sca (env.getMemorySize T m n batch_count).size_1)
                   ((T.sizeof * (env.getMemorySize T m n batch_count).size_1) % SIZE_T_MOD)
                   0 ]
            ++ [ Event.rocsolver_geqrf_template
                   ⟨handle, m, n, A, 0, lda, 0, ipiv, stridep, batch_count,
                     (geqrf_allocate env (env.getMemorySize T m n batch_count)).scalars,
                     (geqrf_allocate env (env.getMemorySize T m n batch_count)).work,
                     (geqrf_allocate env (env.getMemorySize T m n batch_count)).workArr,
                     (geqrf_allocate env (env.getMemorySize T m n batch_count)).diag,
                     (geqrf_allocate env (env.getMemorySize T m n batch_count)).trfact⟩,
                 Event.hipFree (geqrf_allocate env (env.getMemorySize T m n batch_count)).scalars,
                 Event.hipFree (geqrf_allocate env (env.getMemorySize T m n batch_count)).work,
                 Event.hipFree (geqrf_allocate env (env.getMemorySize T m n batch_count)).workArr,
                 Event.hipFree (geqrf_allocate env (env.getMemorySize T m n batch_count)).diag,
                 Event.hipFree
                   (geqrf_allocate env (env.getMemorySize T m n batch_count)).trfact ]⟩ := by
  unfold geqrf_batched_execution
  simp only [hf, if_false, hc, ne_eq, not_true_eq_false]

/-- No event of the execution part of the geqrf wrapper consults or sets the size-query
state of the handle. -/
lemma geqrf_batched_execution_no_size_query (env : GeqrfEnv) (T : ElemType)
    (handle : Nat) (m n : Int) (A : Nat) (lda : Int) (ipiv : Nat) (stridep batch_count : Int) :
    ∀ e ∈ (geqrf_batched_execution env T handle m n A lda ipiv stridep batch_count).trace,
      e.isSizeQuery = false := by
  unfold geqrf_batched_execution
  simp only
  split_ifs <;>
    simp [geqrf_allocation_trace, Event.isSizeQuery, or_imp, forall_and]

/-- The sizes requested by the execution part of the geqrf wrapper are the planner's five,
in program order. -/
lemma geqrf_batched_execution_requestedSizes (env : GeqrfEnv) (T : ElemType)
    (handle : Nat) (m n : Int) (A : Nat) (lda : Int) (ipiv : Nat) (stridep batch_count : Int) :
    requestedSizes
        (geqrf_batched_execution env T handle m n A lda ipiv stridep batch_count).trace
      = [ (env.getMemorySize T m n batch_count).size_1,
          (env.getMemorySize T m n batch_count).size_2,
          (env.getMemorySize T m n batch_count).size_3,
          (env.getMemorySize T m n batch_count).size_4,
          (env.getMemorySize T m n batch_count).size_5 ] := by
  unfold geqrf_batched_execution
  simp only
  split_ifs <;>
    simp [requestedSizes, geqrf_allocation_trace, List.flatMap, Event.requestedSizes]

/-- The sizes requested by the gebd2 wrapper once the handle and the arguments have been
accepted are the planner's three, in size-query mode as well as on allocation. -/
lemma rocsolver_gebd2_strided_batched_impl_requestedSizes (env : Gebd2Env) (T : ElemType)
    (handle : Nat) (m n : Int) (A : Nat) (lda strideA : Int) (D : Nat) (strideD : Int)
    (E : Nat) (strideE : Int) (tauq : Nat) (strideQ : Int) (taup : Nat) (strideP : Int)
    (batch_count : Int) (hh : handle ≠ 0)
    (hc : env.argCheck ⟨handle, m, n, lda, A, D, E, tauq, taup, batch_count⟩
      = rocblas_status_continue) :
    requestedSizes
        (rocsolver_gebd2_strided_batched_impl env T handle m n A lda strideA D strideD E
          strideE tauq strideQ taup strideP batch_count).trace
      = [ (env.getMemorySize T m n batch_count).size_scalars,
          (env.getMemorySize T m n batch_count).size_work_workArr,
          (env.getMemorySize T m n batch_count).size_Abyx_norms ] := by
  simp only [rocsolver_gebd2_strided_batched_impl, hh, if_false, hc, ne_eq, not_true_eq_false]
  cases hq : env.is_device_memory_size_query handle
  · cases hmem : env.device_malloc handle (env.getMemorySize T m n batch_count).size_scalars
        (env.getMemorySize T m n batch_count).size_work_workArr
        (env.getMemorySize T m n batch_count).size_Abyx_norms with
    | none => simp [requestedSizes, List.flatMap, Event.requestedSizes]
    | some p =>
      obtain ⟨p0, p1, p2⟩ := p
      by_cases hs : (env.getMemorySize T m n batch_count).size_scalars > 0
      · simp [requestedSizes, List.flatMap, Event.requestedSizes, hs]
      · simp [requestedSizes, List.flatMap, Event.requestedSizes, hs]
  · simp [requestedSizes, List.flatMap, Event.requestedSizes]

/-! ## Null handle -/

/-- C1: a call with a null handle returns invalid-handle from both wrappers, whatever the
other arguments are.  The geqrf wrapper has then made no collaborator call at all; the
gebd2 wrapper has only written its entry log record: neither has checked arguments,
sized or allocated workspace, initialised scalars or executed a template. -/
theorem null_handle_returns_invalid_handle (envq : GeqrfEnv) (envb : Gebd2Env) (T : ElemType)
    (m n : Int) (A : Nat) (lda : Int) (ipiv : Nat) (stridep batch_count : Int)
    (strideA : Int) (D : Nat) (strideD : Int) (E : Nat) (strideE : Int) (tauq : Nat)
    (strideQ : Int) (taup : Nat) (strideP : Int) :
    rocsolver_geqrf_batched_impl envq T 0 m n A lda ipiv stridep batch_count
        = ⟨rocblas_status_invalid_handle, []⟩
    ∧ rocsolver_gebd2_strided_batched_impl envb T 0 m n A lda strideA D strideD E strideE
          tauq strideQ taup strideP batch_count
        = ⟨rocblas_status_invalid_handle,
            [Event.ROCSOLVER_ENTER_TOP m n lda strideA strideP batch_count]⟩
    ∧ ∀ e ∈ (rocsolver_gebd2_strided_batched_impl envb T 0 m n A lda strideA D strideD E
          strideE tauq strideQ taup strideP batch_count).trace,
        e.isArgCheck = false ∧ e.isSizing = false ∧ e.isAlloc = false
          ∧ e.isScalarInit = false ∧ e.isFree = false ∧ e.isTemplate = false := by
  refine ⟨?_, ?_, ?_⟩
  · simp [rocsolver_geqrf_batched_impl, geqrf_batched_validation_null_handle]
  · simp [rocsolver_gebd2_strided_batched_impl]
  · intro e he
    simp only [rocsolver_gebd2_strided_batched_impl, if_true, List.mem_singleton] at he
    subst he
    simp [Event.isArgCheck, Event.isSizing, Event.isAlloc, Event.isScalarInit, Event.isFree,
      Event.isTemplate]

/-! ## Argument checking of `rocsolver_geqrf_batched_impl` -/

/-- C2 fails as stated: with a handle, a negative `m` and a null `A`, the status is
invalid-pointer, not invalid-size. -/
theorem geqrf_invalid_size_counterexample :
    ((-1 : Int) < 0 ∨ (1 : Int) < 0 ∨ (1 : Int) < -1 ∨ (1 : Int) < 0)
    ∧ (rocsolver_geqrf_batched_impl geqrfEnvOk .float 1 (-1) 1 0 1 4096 0 1).status
        = rocblas_status_invalid_pointer
    ∧ (rocsolver_geqrf_batched_impl geqrfEnvOk .float 1 (-1) 1 0 1 4096 0 1).status
        ≠ rocblas_status_invalid_size := by
  decide

/-- C2 (amended): with a non-null handle and non-null `A` and `ipiv`, a call with `m < 0`
or `n < 0` or `lda < m` or `batch_count < 0` returns invalid-size, for every value of the
remaining arguments, and has made no collaborator call. -/
theorem geqrf_invalid_size (env : GeqrfEnv) (T : ElemType) (handle : Nat) (m n : Int)
    (A : Nat) (lda : Int) (ipiv : Nat) (stridep batch_count : Int)
    (hh : handle ≠ 0) (hA : A ≠ 0) (hi : ipiv ≠ 0)
    (hs : m < 0 ∨ n < 0 ∨ lda < m ∨ batch_count < 0) :
    rocsolver_geqrf_batched_impl env T handle m n A lda ipiv stridep batch_count
      = ⟨rocblas_status_invalid_size, []⟩ := by
  simp [rocsolver_geqrf_batched_impl,
    geqrf_batched_validation_bad_size handle m n A lda ipiv batch_count hh hA hi hs]

/-- An instance of `geqrf_invalid_size`: `lda = 4 < m = 5` with both buffers present. -/
theorem geqrf_invalid_size_witness :
    rocsolver_geqrf_batched_impl geqrfEnvOk .double 1 5 3 4096 4 8192 3 2
      = ⟨rocblas_status_invalid_size, []⟩ :=
  geqrf_invalid_size geqrfEnvOk .double 1 5 3 4096 4 8192 3 2 (by decide) (by decide)
    (by decide) (by decide)

/-- C3: with a non-null handle, a null `A` or a null `ipiv` gives invalid-pointer, for all
values of `m`, `n`, `lda` and `batch_count`, the invalid ones included: the pointer check
is decided before the size check. -/
theorem geqrf_invalid_pointer_before_size (env : GeqrfEnv) (T : ElemType) (handle : Nat)
    (m n : Int) (A : Nat) (lda : Int) (ipiv : Nat) (stridep batch_count : Int)
    (hh : handle ≠ 0) (hp : A = 0 ∨ ipiv = 0) :
    rocsolver_geqrf_batched_impl env T handle m n A lda ipiv stridep batch_count
      = ⟨rocblas_status_invalid_pointer, []⟩ := by
  simp [rocsolver_geqrf_batched_impl,
    geqrf_batched_validation_null_pointer handle m n A lda ipiv batch_count hh hp]

/-- An instance of `geqrf_invalid_pointer_before_size`: `ipiv` is null while `m`, `n` and
`batch_count` are negative and `lda < m`. -/
theorem geqrf_invalid_pointer_before_size_witness :
    rocsolver_geqrf_batched_impl geqrfEnvOk .float 1 (-1) (-2) 4096 (-5) 0 0 (-7)
      = ⟨rocblas_status_invalid_pointer, []⟩ :=
  geqrf_invalid_pointer_before_size geqrfEnvOk .float 1 (-1) (-2) 4096 (-5) 0 0 (-7)
    (by decide) (by decide)

/-- C4: a valid call (non-null handle, `A` and `ipiv`, `m ≥ 0`, `n ≥ 0`, `lda ≥ m`,
`batch_count ≥ 0`) is never rejected: the validation returns no status, the wrapper runs
its execution part, and the first thing it does is the workspace sizing
`rocsolver_geqrf_getMemorySize(m, n, batch_count)`. -/
theorem geqrf_accepts_valid_call (env : GeqrfEnv) (T : ElemType) (handle : Nat) (m n : Int)
    (A : Nat) (lda : Int) (ipiv : Nat) (stridep batch_count : Int)
    (hh : handle ≠ 0) (hA : A ≠ 0) (hi : ipiv ≠ 0) (hm : 0 ≤ m) (hn : 0 ≤ n) (hl : m ≤ lda)
    (hb : 0 ≤ batch_count) :
    geqrf_batched_validation handle m n A lda ipiv batch_count = none
    ∧ rocsolver_geqrf_batched_impl env T handle m n A lda ipiv stridep batch_count
        = geqrf_batched_execution env T handle m n A lda ipiv stridep batch_count
    ∧ (rocsolver_geqrf_batched_impl env T handle m n A lda ipiv stridep batch_count).trace.head?
        = some (Event.rocsolver_geqrf_getMemorySize T m n batch_count
            (env.getMemorySize T m n batch_count)) := by
  have hv : geqrf_batched_validation handle m n A lda ipiv batch_count = none :=
    (geqrf_batched_validation_eq_none_iff handle m n A lda ipiv batch_count).2
      ⟨hh, hA, hi, hm, hn, hl, hb⟩
  have hx := rocsolver_geqrf_batched_impl_of_valid env T handle m n A lda ipiv stridep
    batch_count hv
  refine ⟨hv, hx, ?_⟩
  obtain ⟨rest, hr⟩ := geqrf_batched_execution_trace_starts env T handle m n A lda ipiv
    stridep batch_count
  rw [hx, hr]
  rfl

/-- An instance of `geqrf_accepts_valid_call` at the boundary `m = 0`, `lda = 0 = m`. -/
theorem geqrf_accepts_valid_call_witness :
    geqrf_batched_validation 1 0 5 4096 0 8192 3 = none
    ∧ rocsolver_geqrf_batched_impl geqrfEnvOk .float 1 0 5 4096 0 8192 0 3
        = geqrf_batched_execution geqrfEnvOk .float 1 0 5 4096 0 8192 0 3
    ∧ (rocsolver_geqrf_batched_impl geqrfEnvOk .float 1 0 5 4096 0 8192 0 3).trace.head?
        = some (Event.rocsolver_geqrf_getMemorySize .float 0 5 3
            (geqrfEnvOk.getMemorySize .float 0 5 3)) :=
  geqrf_accepts_valid_call geqrfEnvOk .float 1 0 5 4096 0 8192 0 3 (by decide) (by decide)
    (by decide) (by decide) (by decide) (by decide) (by decide)

/-- C5: whenever the validation of `rocsolver_geqrf_batched_impl` returns a status, that
status is invalid-handle, invalid-pointer or invalid-size, the call returns it, and the
trace of the call is empty: no workspace size was computed, no buffer was allocated,
written or freed, and the template was not executed. -/
theorem geqrf_validation_failure_requests_no_work (env : GeqrfEnv) (T : ElemType)
    (handle : Nat) (m n : Int) (A : Nat) (lda : Int) (ipiv : Nat) (stridep batch_count : Int)
    (st : rocblas_status)
    (hv : geqrf_batched_validation handle m n A lda ipiv batch_count = some st) :
    (st = rocblas_status_invalid_handle ∨ st = rocblas_status_invalid_pointer
        ∨ st = rocblas_status_invalid_size)
    ∧ rocsolver_geqrf_batched_impl env T handle m n A lda ipiv stridep batch_count
        = ⟨st, []⟩ := by
  refine ⟨?_, by simp [rocsolver_geqrf_batched_impl, hv]⟩
  unfold geqrf_batched_validation at hv
  split_ifs at hv <;> simp_all

/-- An instance of `geqrf_validation_failure_requests_no_work`: a negative `batch_count`. -/
theorem geqrf_validation_failure_requests_no_work_witness :
    (rocblas_status_invalid_size = rocblas_status_invalid_handle
        ∨ rocblas_status_invalid_size = rocblas_status_invalid_pointer
        ∨ rocblas_status_invalid_size = rocblas_status_invalid_size)
    ∧ rocsolver_geqrf_batched_impl geqrfEnvOk .float 1 4 4 4096 4 8192 4 (-1)
        = ⟨rocblas_status_invalid_size, []⟩ :=
  geqrf_validation_failure_requests_no_work geqrfEnvOk .float 1 4 4 4096 4 8192 4 (-1)
    rocblas_status_invalid_size (by decide)

/-! ## Quick-return shapes and size queries in `rocsolver_geqrf_batched_impl` -/

/-- C6 fails as stated: on the call `m = 0`, `n = 5`, `lda = 0`, `batch_count = 3` with a
handle and both buffers, the wrapper attempts allocations and dispatches the template
(on an accelerator where all succeeds), and returns memory-error instead of success on an
accelerator without memory. -/
theorem geqrf_quick_return_counterexample :
    ((0 : Int) = 0 ∨ (5 : Int) = 0 ∨ (3 : Int) = 0)
    ∧ geqrf_batched_validation 1 0 5 4096 0 8192 3 = none
    ∧ (rocsolver_geqrf_batched_impl geqrfEnvOk .float 1 0 5 4096 0 8192 0 3).trace.any
        Event.isAlloc = true
    ∧ (rocsolver_geqrf_batched_impl geqrfEnvOk .float 1 0 5 4096 0 8192 0 3).trace.any
        Event.isTemplate = true
    ∧ (rocsolver_geqrf_batched_impl geqrfEnvNoMem .float 1 0 5 4096 0 8192 0 3).status
        = rocblas_status_memory_error := by
  decide

/-- C6 (amended): for a call with a non-null handle, non-null `A` and `ipiv` and valid
sizes, a quick-return shape (`m = 0`, or `n = 0`, or `batch_count = 0`) is not
short-circuited by the wrapper.  The call computes the workspace sizes and attempts all
five allocations; it returns memory-error when the allocation check fails; and when that
check and the scalars copy succeed it dispatches the template exactly once and returns
the template's status. -/
theorem geqrf_quick_return_not_short_circuited (env : GeqrfEnv) (T : ElemType) (handle : Nat)
    (m n : Int) (A : Nat) (lda : Int) (ipiv : Nat) (stridep batch_count : Int)
    (hh : handle ≠ 0) (hA : A ≠ 0) (hi : ipiv ≠ 0) (hm : 0 ≤ m) (hn : 0 ≤ n) (hl : m ≤ lda)
    (hb : 0 ≤ batch_count) (_hq : m = 0 ∨ n = 0 ∨ batch_count = 0) :
    let sz := env.getMemorySize T m n batch_count
    let w := geqrf_allocate env sz
    let r := rocsolver_geqrf_batched_impl env T handle m n A lda ipiv stridep batch_count
    (∃ rest, r.trace = geqrf_allocation_trace T m n batch_count sz w ++ rest)
    ∧ (geqrf_allocation_failed sz w →
        r = ⟨rocblas_status_memory_error, geqrf_allocation_trace T m n batch_count sz w⟩)
    ∧ (¬ geqrf_allocation_failed sz w →
        env.hipMemcpy w.scalars (geqrf_sca sz.size_1) ((T.sizeof * sz.size_1) % SIZE_T_MOD) = 0 →
        r.status = env.template T ⟨handle, m, n, A, 0, lda, 0, ipiv, stridep, batch_count,
            w.scalars, w.work, w.workArr, w.diag, w.trfact⟩
        ∧ r.trace.filter Event.isTemplate
            = [Event.rocsolver_geqrf_template ⟨handle, m, n, A, 0, lda, 0, ipiv, stridep,
                batch_count, w.scalars, w.work, w.workArr, w.diag, w.trfact⟩]) := by
  intro sz w r
  have hv : geqrf_batched_validation handle m n A lda ipiv batch_count = none :=
    (geqrf_batched_validation_eq_none_iff handle m n A lda ipiv batch_count).2
      ⟨hh, hA, hi, hm, hn, hl, hb⟩
  have hx : r = geqrf_batched_execution env T handle m n A lda ipiv stridep batch_count :=
    rocsolver_geqrf_batched_impl_of_valid env T handle m n A lda ipiv stridep batch_count hv
  refine ⟨?_, ?_, ?_⟩
  · rw [hx]
    exact geqrf_batched_execution_trace_starts env T handle m n A lda ipiv stridep batch_count
  · intro hf
    rw [hx]
    exact geqrf_batched_execution_of_allocation_failed env T handle m n A lda ipiv stridep
      batch_count hf
  · intro hf hc
    rw [hx, geqrf_batched_execution_of_copy_ok env T handle m n A lda ipiv stridep
      batch_count hf hc]
    simp [geqrf_allocation_trace, List.filter, Event.isTemplate]

/-- An instance of `geqrf_quick_return_not_short_circuited`: the call `m = 0`, `n = 5`,
`lda = 0`, `batch_count = 3` runs the template once and returns its status. -/
theorem geqrf_quick_return_not_short_circuited_witness :
    (rocsolver_geqrf_batched_impl geqrfEnvOk .float 1 0 5 4096 0 8192 0 3).status
        = geqrfEnvOk.template .float ⟨1, 0, 5, 4096, 0, 0, 0, 8192, 0, 3,
            4096, 4097, 4098, 4099, 4100⟩
    ∧ (rocsolver_geqrf_batched_impl geqrfEnvOk .float 1 0 5 4096 0 8192 0 3).trace.filter
          Event.isTemplate
        = [Event.rocsolver_geqrf_template ⟨1, 0, 5, 4096, 0, 0, 0, 8192, 0, 3,
            4096, 4097, 4098, 4099, 4100⟩] :=
  (geqrf_quick_return_not_short_circuited geqrfEnvOk .float 1 0 5 4096 0 8192 0 3
    (by decide) (by decide) (by decide) (by decide) (by decide) (by decide) (by decide)
    (by decide)).2.2 (by decide) (by decide)

/-- C9: the code misses the size-query mode the claim describes.  With the handle `2`,
which is in size-query mode, and valid sizes, a call with null `A` and `ipiv` is rejected
with invalid-pointer and reports no size, and a call with both buffers allocates workspace
and executes the template. -/
theorem geqrf_size_query_mode_missing :
    geqrfEnvOk.is_device_memory_size_query 2 = true
    ∧ rocsolver_geqrf_batched_impl geqrfEnvOk .float 2 3 3 0 3 0 3 1
        = ⟨rocblas_status_invalid_pointer, []⟩
    ∧ (rocsolver_geqrf_batched_impl geqrfEnvOk .float 2 3 3 4096 3 8192 3 1).trace.any
        Event.isAlloc = true
    ∧ (rocsolver_geqrf_batched_impl geqrfEnvOk .float 2 3 3 4096 3 8192 3 1).trace.any
        Event.isTemplate = true := by
  decide

/-- The geqrf wrapper ignores the size-query state of the handle (its line 34 leaves size
queries through the handle as a TODO).  For a non-null handle that is in
size-query mode and valid sizes, a call with a null `A` or `ipiv` returns
invalid-pointer without computing any size; a call with both buffers computes the sizes,
attempts the five allocations and never asks the handle for its mode nor registers sizes
with it; and the result of a call is the same whatever the size-query state of the
handle. -/
theorem geqrf_ignores_size_query_state (env : GeqrfEnv) (T : ElemType) (handle : Nat)
    (m n : Int) (A : Nat) (lda : Int) (ipiv : Nat) (stridep batch_count : Int)
    (hh : handle ≠ 0) (_hquery : env.is_device_memory_size_query handle = true)
    (hm : 0 ≤ m) (hn : 0 ≤ n) (hl : m ≤ lda) (hb : 0 ≤ batch_count) :
    let r := rocsolver_geqrf_batched_impl env T handle m n A lda ipiv stridep batch_count
    ((A = 0 ∨ ipiv = 0) → r = ⟨rocblas_status_invalid_pointer, []⟩)
    ∧ (A ≠ 0 → ipiv ≠ 0 →
        (∃ rest, r.trace
            = geqrf_allocation_trace T m n batch_count (env.getMemorySize T m n batch_count)
                (geqrf_allocate env (env.getMemorySize T m n batch_count)) ++ rest)
        ∧ ∀ e ∈ r.trace, e.isSizeQuery = false)
    ∧ (∀ q : Nat → Bool,
        rocsolver_geqrf_batched_impl { env with is_device_memory_size_query := q } T handle
            m n A lda ipiv stridep batch_count = r) := by
  intro r
  refine ⟨?_, ?_, ?_⟩
  · intro hp
    exact geqrf_invalid_pointer_before_size env T handle m n A lda ipiv stridep batch_count
      hh hp
  · intro hA hi
    have hv : geqrf_batched_validation handle m n A lda ipiv batch_count = none :=
      (geqrf_batched_validation_eq_none_iff handle m n A lda ipiv batch_count).2
        ⟨hh, hA, hi, hm, hn, hl, hb⟩
    have hx : r = geqrf_batched_execution env T handle m n A lda ipiv stridep batch_count :=
      rocsolver_geqrf_batched_impl_of_valid env T handle m n A lda ipiv stridep batch_count hv
    rw [hx]
    exact ⟨geqrf_batched_execution_trace_starts env T handle m n A lda ipiv stridep
        batch_count,
      geqrf_batched_execution_no_size_query env T handle m n A lda ipiv stridep batch_count⟩
  · intro q
    rfl

/-- An instance of `geqrf_ignores_size_query_state`: the handle `2` is in size-query mode,
the sizes are valid and `A` is null; the call returns invalid-pointer. -/
theorem geqrf_ignores_size_query_state_witness :
    rocsolver_geqrf_batched_impl geqrfEnvOk .float 2 3 3 0 3 8192 3 1
      = ⟨rocblas_status_invalid_pointer, []⟩ :=
  (geqrf_ignores_size_query_state geqrfEnvOk .float 2 3 3 0 3 8192 3 1 (by decide) (by decide)
    (by decide) (by decide) (by decide) (by decide)).1 (by decide)

/-! ## Paths of `rocsolver_gebd2_strided_batched_impl` -/

/-- C8: in `rocsolver_gebd2_strided_batched_impl` with a non-null handle and an argument
check that returns `continue`, a call in size-query mode returns the status of registering
exactly the three sizes that `rocsolver_gebd2_getMemorySize` computed from
`(m, n, batch_count)`; the trace ends with that registration: nothing is allocated, no
scalar is initialised and the template is not executed. -/
theorem gebd2_size_query_registers_planned_sizes (env : Gebd2Env) (T : ElemType)
    (handle : Nat) (m n : Int) (A : Nat) (lda strideA : Int) (D : Nat) (strideD : Int)
    (E : Nat) (strideE : Int) (tauq : Nat) (strideQ : Int) (taup : Nat) (strideP : Int)
    (batch_count : Int)
    (hh : handle ≠ 0)
    (hc : env.argCheck ⟨handle, m, n, lda, A, D, E, tauq, taup, batch_count⟩
      = rocblas_status_continue)
    (hq : env.is_device_memory_size_query handle = true) :
    let sz := env.getMemorySize T m n batch_count
    let r := rocsolver_gebd2_strided_batched_impl env T handle m n A lda strideA D strideD E
      strideE tauq strideQ taup strideP batch_count
    r = ⟨env.set_optimal_device_memory_size handle sz.size_scalars sz.size_work_workArr
            sz.size_Abyx_norms,
          [ Event.ROCSOLVER_ENTER_TOP m n lda strideA strideP batch_count,
            Event.rocsolver_gebd2_gebrd_argCheck
              ⟨handle, m, n, lda, A, D, E, tauq, taup, batch_count⟩ rocblas_status_continue,
            Event.rocsolver_gebd2_getMemorySize T m n batch_count sz,
            Event.rocblas_is_device_memory_size_query handle true,
            Event.rocblas_set_optimal_device_memory_size handle sz.size_scalars
              sz.size_work_workArr sz.size_Abyx_norms ]⟩
    ∧ ∀ e ∈ r.trace, e.isAlloc = false ∧ e.isScalarInit = false ∧ e.isTemplate = false := by
  intro sz r
  have hr : r = ⟨env.set_optimal_device_memory_size handle sz.size_scalars
            sz.size_work_workArr sz.size_Abyx_norms,
          [ Event.ROCSOLVER_ENTER_TOP m n lda strideA strideP batch_count,
            Event.rocsolver_gebd2_gebrd_argCheck
              ⟨handle, m, n, lda, A, D, E, tauq, taup, batch_count⟩ rocblas_status_continue,
            Event.rocsolver_gebd2_getMemorySize T m n batch_count sz,
            Event.rocblas_is_device_memory_size_query handle true,
            Event.rocblas_set_optimal_device_memory_size handle sz.size_scalars
              sz.size_work_workArr sz.size_Abyx_norms ]⟩ := by
    simp [r, sz, rocsolver_gebd2_strided_batched_impl, hh, hc, hq]
  refine ⟨hr, ?_⟩
  rw [hr]
  simp [Event.isAlloc, Event.isScalarInit, Event.isTemplate]

/-- An instance of `gebd2_size_query_registers_planned_sizes`: the handle `2` is in
size-query mode; a 4-by-3 call with 2 matrices of `float` registers the sizes 12, 6, 8. -/
theorem gebd2_size_query_registers_planned_sizes_witness :
    rocsolver_gebd2_strided_batched_impl gebd2EnvOk .float 2 4 3 4096 4 12 8192 3 12288 2
        16384 3 20480 3 2
      = ⟨rocblas_status_other 9,
          [ Event.ROCSOLVER_ENTER_TOP 4 3 4 12 3 2,
            Event.rocsolver_gebd2_gebrd_argCheck
              ⟨2, 4, 3, 4, 4096, 8192, 12288, 16384, 20480, 2⟩ rocblas_status_continue,
            Event.rocsolver_gebd2_getMemorySize .float 4 3 2 ⟨12, 6, 8⟩,
            Event.rocblas_is_device_memory_size_query 2 true,
            Event.rocblas_set_optimal_device_memory_size 2 12 6 8 ]⟩ :=
  (gebd2_size_query_registers_planned_sizes gebd2EnvOk .float 2 4 3 4096 4 12 8192 3 12288 2
    16384 3 20480 3 2 (by decide) (by decide) (by decide)).1

/-! ## Workspace sizes depend on the shape only -/

/-- C10: in both wrappers the workspace sizes requested are those the planner computes
from `(m, n, batch_count)` and the element type.  Two accepted calls that agree on these
values request identical sizes, although they may differ in the handle (and its
size-query state), in `A`, `lda`, `strideA`, in the output pointers and strides, and in
everything the accelerator does (allocation results, matrix contents, template status):
the two environments only share the planner. -/
theorem requested_sizes_depend_on_shape_only
    (envq envq' : GeqrfEnv) (envb envb' : Gebd2Env) (T : ElemType) (m n batch_count : Int)
    (hpq : envq.getMemorySize = envq'.getMemorySize)
    (hpb : envb.getMemorySize = envb'.getMemorySize)
    (hq hq' : Nat) (Aq Aq' : Nat) (ldaq ldaq' : Int) (ipiv ipiv' : Nat) (stridep stridep' : Int)
    (hvq : geqrf_batched_validation hq m n Aq ldaq ipiv batch_count = none)
    (hvq' : geqrf_batched_validation hq' m n Aq' ldaq' ipiv' batch_count = none)
    (hb hb' : Nat) (A A' : Nat) (lda lda' strideA strideA' : Int) (D D' : Nat)
    (strideD strideD' : Int) (E E' : Nat) (strideE strideE' : Int) (tauq tauq' : Nat)
    (strideQ strideQ' : Int) (taup taup' : Nat) (strideP strideP' : Int)
    (hhb : hb ≠ 0) (hhb' : hb' ≠ 0)
    (hcb : envb.argCheck ⟨hb, m, n, lda, A, D, E, tauq, taup, batch_count⟩
      = rocblas_status_continue)
    (hcb' : envb'.argCheck ⟨hb', m, n, lda', A', D', E', tauq', taup', batch_count⟩
      = rocblas_status_continue) :
    requestedSizes
        (rocsolver_geqrf_batched_impl envq T hq m n Aq ldaq ipiv stridep batch_count).trace
      = [ (envq.getMemorySize T m n batch_count).size_1,
          (envq.getMemorySize T m n batch_count).size_2,
          (envq.getMemorySize T m n batch_count).size_3,
          (envq.getMemorySize T m n batch_count).size_4,
          (envq.getMemorySize T m n batch_count).size_5 ]
    ∧ requestedSizes
        (rocsolver_geqrf_batched_impl envq' T hq' m n Aq' ldaq' ipiv' stridep'
          batch_count).trace
      = requestedSizes
        (rocsolver_geqrf_batched_impl envq T hq m n Aq ldaq ipiv stridep batch_count).trace
    ∧ requestedSizes
        (rocsolver_gebd2_strided_batched_impl envb T hb m n A lda strideA D strideD E strideE
          tauq strideQ taup strideP batch_count).trace
      = [ (envb.getMemorySize T m n batch_count).size_scalars,
          (envb.getMemorySize T m n batch_count).size_work_workArr,
          (envb.getMemorySize T m n batch_count).size_Abyx_norms ]
    ∧ requestedSizes
        (rocsolver_gebd2_strided_batched_impl envb' T hb' m n A' lda' strideA' D' strideD' E'
          strideE' tauq' strideQ' taup' strideP' batch_count).trace
      = requestedSizes
        (rocsolver_gebd2_strided_batched_impl envb T hb m n A lda strideA D strideD E strideE
          tauq strideQ taup strideP batch_count).trace := by
  have e1 := geqrf_batched_execution_requestedSizes envq T hq m n Aq ldaq ipiv stridep
    batch_count
  have e2 := geqrf_batched_execution_requestedSizes envq' T hq' m n Aq' ldaq' ipiv' stridep'
    batch_count
  have e3 := rocsolver_gebd2_strided_batched_impl_requestedSizes envb T hb m n A lda strideA
    D strideD E strideE tauq strideQ taup strideP batch_count hhb hcb
  have e4 := rocsolver_gebd2_strided_batched_impl_requestedSizes envb' T hb' m n A' lda'
    strideA' D' strideD' E' strideE' tauq' strideQ' taup' strideP' batch_count hhb' hcb'
  rw [rocsolver_geqrf_batched_impl_of_valid envq T hq m n Aq ldaq ipiv stridep batch_count hvq,
    rocsolver_geqrf_batched_impl_of_valid envq' T hq' m n Aq' ldaq' ipiv' stridep'
      batch_count hvq']
  refine ⟨e1, ?_, e3, ?_⟩
  · rw [e1, e2, hpq]
  · rw [e3, e4, hpb]

/-- An instance of `requested_sizes_depend_on_shape_only`: a 4-by-3 problem with 2 matrices
of `float`.  The geqrf calls differ in handle, buffers, `lda` and stride and run on an
accelerator with and without free memory; the gebd2 calls are an allocation that fails
and a size query.  Each pair requests the same sizes. -/
theorem requested_sizes_depend_on_shape_only_witness :
    requestedSizes
        (rocsolver_geqrf_batched_impl geqrfEnvNoMem .float 2 4 3 100 9 200 7 2).trace
      = requestedSizes
        (rocsolver_geqrf_batched_impl geqrfEnvOk .float 1 4 3 4096 4 8192 3 2).trace
    ∧ requestedSizes
        (rocsolver_gebd2_strided_batched_impl gebd2EnvOk .float 2 4 3 100 8 40 200 5 300 6
          400 7 500 8 2).trace
      = requestedSizes
        (rocsolver_gebd2_strided_batched_impl gebd2EnvNoMem .float 1 4 3 4096 4 12 8192 3
          12288 2 16384 3 20480 3 2).trace :=
  have h := requested_sizes_depend_on_shape_only geqrfEnvOk geqrfEnvNoMem gebd2EnvNoMem
    gebd2EnvOk .float 4 3 2 rfl rfl
    1 2 4096 100 4 9 8192 200 3 7 (by decide) (by decide)
    1 2 4096 100 4 8 12 40 8192 200 3 5 12288 300 2 6 16384 400 3 7 20480 500 3 8
    (by decide) (by decide) (by decide) (by decide)
  ⟨h.2.1, h.2.2.2⟩

/-! ## Release of the workspace of `rocsolver_geqrf_batched_impl` -/

/-- On the two early returns of the execution part (memory-error on line 42, failed copy on
line 50) the geqrf wrapper calls `hipFree` for no buffer. -/
lemma geqrf_batched_execution_early_return_releases_nothing (env : GeqrfEnv) (T : ElemType)
    (handle : Nat) (m n : Int) (A : Nat) (lda : Int) (ipiv : Nat) (stridep batch_count : Int)
    (he : geqrf_allocation_failed (env.getMemorySize T m n batch_count)
        (geqrf_allocate env (env.getMemorySize T m n batch_count))
      ∨ env.hipMemcpy (geqrf_allocate env (env.getMemorySize T m n batch_count)).scalars
          (geqrf_sca (env.getMemorySize T m n batch_count).size_1)
          ((T.sizeof * (env.getMemorySize T m n batch_count).size_1) % SIZE_T_MOD) ≠ 0) :
    releasedBuffers
      (geqrf_batched_execution env T handle m n A lda ipiv stridep batch_count).trace = [] := by
  unfold geqrf_batched_execution
  simp only
  split_ifs with h1 h2
  · simp [releasedBuffers, geqrf_allocation_trace, Event.released]
  · simp [releasedBuffers, geqrf_allocation_trace, Event.released]
  · rcases he with he | he
    · exact absurd he h1
    · exact absurd he h2

/-- C11: the code leaks on its early returns.  A valid 4-by-3 call with 2 matrices:
(a) where only the scalars can be allocated, it returns memory-error having acquired the
buffer `4096` and released nothing; (b) where the scalars copy fails, it returns the copy's
status having acquired five buffers and released nothing; (c) on the normal return the
five acquired buffers are the five released ones. -/
theorem geqrf_early_returns_leak_workspace :
    (rocsolver_geqrf_batched_impl geqrfEnvPartialMem .float 1 4 3 4096 4 8192 3 2).status
        = rocblas_status_memory_error
    ∧ acquiredBuffers
        (rocsolver_geqrf_batched_impl geqrfEnvPartialMem .float 1 4 3 4096 4 8192 3 2).trace
        = [4096]
    ∧ releasedBuffers
        (rocsolver_geqrf_batched_impl geqrfEnvPartialMem .float 1 4 3 4096 4 8192 3 2).trace
        = []
    ∧ (rocsolver_geqrf_batched_impl geqrfEnvCopyFails .float 1 4 3 4096 4 8192 3 2).status
        = rocblas_status_other 1
    ∧ acquiredBuffers
        (rocsolver_geqrf_batched_impl geqrfEnvCopyFails .float 1 4 3 4096 4 8192 3 2).trace
        = [4096, 4097, 4098, 4099, 4100]
    ∧ releasedBuffers
        (rocsolver_geqrf_batched_impl geqrfEnvCopyFails .float 1 4 3 4096 4 8192 3 2).trace
        = []
    ∧ acquiredBuffers
        (rocsolver_geqrf_batched_impl geqrfEnvOk .float 1 4 3 4096 4 8192 3 2).trace
        = [4096, 4097, 4098, 4099, 4100]
    ∧ releasedBuffers
        (rocsolver_geqrf_batched_impl geqrfEnvOk .float 1 4 3 4096 4 8192 3 2).trace
        = [4096, 4097, 4098, 4099, 4100] := by
  decide

/-! ## Decoding of the test parameters -/

/-- An `int` value that is in range is not changed by the wrap-around. -/
lemma int32_wrap_of_in_range (x : Int) (hlo : -2 ^ 31 ≤ x) (hhi : x < 2 ^ 31) :
    int32_wrap x = x := by
  unfold int32_wrap
  rw [Int.emod_eq_of_lt (by omega) (by omega)]
  omega

/-- The result of `ormtr_setup_arguments` on a size `{M, N}` and a store `{a, c, s, t, u}`. -/
lemma ormtr_setup_arguments_eq (M N a c s t u : Int) :
    ormtr_setup_arguments [M, N] [a, c, s, t, u]
      = some
          ⟨if t = 0 then 'N' else (if t = 1 then 'T' else 'C'),
            if u = 0 then 'U' else 'L',
            if s = 0 then 'L' else 'R',
            N, M,
            int32_wrap (M + int32_wrap (c * 10)),
            int32_wrap ((if (if s = 0 then 'L' else 'R') = 'L' then M else N)
              + int32_wrap (a * 10)),
            0⟩ := by
  simp [ormtr_setup_arguments]

/-- C19: `ormtr_setup_arguments` encodes the leading dimensions as documented.  For a size
`{M, N}` and a store `{a, c, s, t, u}` whose products and sums do not overflow an `int`,
it returns arguments with `lda = nq + 10 * a` and `ldc = M + 10 * c`, where `nq = M` when
`s = 0` (side `'L'`) and `nq = N` otherwise.  Hence `a = -1`, `0`, `1` gives `lda < nq`,
`lda = nq`, `lda > nq`, and `c = -1`, `0`, `1` gives `ldc < M`, `ldc = M`, `ldc > M`. -/
theorem ormtr_setup_arguments_leading_dimensions (M N a c s t u : Int)
    (ha : fits_int32 (a * 10)) (hc : fits_int32 (c * 10))
    (hlda : fits_int32 ((if s = 0 then M else N) + a * 10))
    (hldc : fits_int32 (M + c * 10)) :
    ∃ arg, ormtr_setup_arguments [M, N] [a, c, s, t, u] = some arg
      ∧ arg.lda = (if s = 0 then M else N) + 10 * a
      ∧ arg.ldc = M + 10 * c
      ∧ (a = -1 → arg.lda < (if s = 0 then M else N))
      ∧ (a = 0 → arg.lda = (if s = 0 then M else N))
      ∧ (a = 1 → arg.lda > (if s = 0 then M else N))
      ∧ (c = -1 → arg.ldc < M)
      ∧ (c = 0 → arg.ldc = M)
      ∧ (c = 1 → arg.ldc > M) := by
  have hnq : (if (if s = 0 then 'L' else 'R') = 'L' then M else N)
      = (if s = 0 then M else N) := by
    by_cases hs : s = 0 <;> simp [hs]
  have h1 : int32_wrap (a * 10) = a * 10 := int32_wrap_of_in_range _ ha.1 ha.2
  have h2 : int32_wrap (c * 10) = c * 10 := int32_wrap_of_in_range _ hc.1 hc.2
  have h3 : int32_wrap ((if s = 0 then M else N) + a * 10)
      = (if s = 0 then M else N) + a * 10 := int32_wrap_of_in_range _ hlda.1 hlda.2
  have h4 : int32_wrap (M + c * 10) = M + c * 10 := int32_wrap_of_in_range _ hldc.1 hldc.2
  refine ⟨_, ormtr_setup_arguments_eq M N a c s t u, ?_⟩
  simp only [hnq, h1, h2, h3, h4]
  refine ⟨by ring, by ring, ?_, ?_, ?_, ?_, ?_, ?_⟩ <;> intro h <;> subst h <;> omega

/-- An instance of `ormtr_setup_arguments_leading_dimensions`: size `{20, 5}` with the
store `{-1, 1, 1, 2, 0}` (side `'R'`, so `nq = 5`) gives `lda = -5` and `ldc = 30`. -/
theorem ormtr_setup_arguments_leading_dimensions_witness :
    ∃ arg, ormtr_setup_arguments [20, 5] [-1, 1, 1, 2, 0] = some arg
      ∧ arg.lda = (if (1 : Int) = 0 then 20 else 5) + 10 * (-1)
      ∧ arg.ldc = 20 + 10 * 1
      ∧ ((-1 : Int) = -1 → arg.lda < (if (1 : Int) = 0 then 20 else 5))
      ∧ ((-1 : Int) = 0 → arg.lda = (if (1 : Int) = 0 then 20 else 5))
      ∧ ((-1 : Int) = 1 → arg.lda > (if (1 : Int) = 0 then 20 else 5))
      ∧ ((1 : Int) = -1 → arg.ldc < 20)
      ∧ ((1 : Int) = 0 → arg.ldc = 20)
      ∧ ((1 : Int) = 1 → arg.ldc > 20) :=
  ormtr_setup_arguments_leading_dimensions 20 5 (-1) 1 1 2 0
    (by norm_num [fits_int32]) (by norm_num [fits_int32]) (by norm_num [fits_int32])
    (by norm_num [fits_int32])

/-- C20: `ormtr_setup_arguments` decodes the option codes as documented.  On a size
`{M, N}` and a store `{a, c, s, t, u}` it returns arguments with `M = size[0]` and
`N = size[1]`; `s = 0` gives side `'L'` and `s = 1` gives `'R'`; `t = 0` gives trans `'N'`,
`t = 1` gives `'T'` and `t = 2` gives `'C'`; `u = 0` gives uplo `'U'` and `u = 1` gives
`'L'`. -/
theorem ormtr_setup_arguments_decodes_options (M N a c s t u : Int) :
    (ormtr_setup_arguments [M, N] [a, c, s, t, u]).map Arguments.M = some M
    ∧ (ormtr_setup_arguments [M, N] [a, c, s, t, u]).map Arguments.N = some N
    ∧ (ormtr_setup_arguments [M, N] [a, c, 0, t, u]).map Arguments.side_option = some 'L'
    ∧ (ormtr_setup_arguments [M, N] [a, c, 1, t, u]).map Arguments.side_option = some 'R'
    ∧ (ormtr_setup_arguments [M, N] [a, c, s, 0, u]).map Arguments.transA_option = some 'N'
    ∧ (ormtr_setup_arguments [M, N] [a, c, s, 1, u]).map Arguments.transA_option = some 'T'
    ∧ (ormtr_setup_arguments [M, N] [a, c, s, 2, u]).map Arguments.transA_option = some 'C'
    ∧ (ormtr_setup_arguments [M, N] [a, c, s, t, 0]).map Arguments.uplo_option = some 'U'
    ∧ (ormtr_setup_arguments [M, N] [a, c, s, t, 1]).map Arguments.uplo_option = some 'L' := by
  simp [ormtr_setup_arguments_eq]

/-! ## The pivot search -/

/-- The scan returns an index not below its start. -/
lemma getf2_pivot_scan_ge {α : Type} [LinearOrderedField α] (col : Nat → α) (k l : Nat) :
    k ≤ getf2_pivot_scan col k l := by
  induction l with
  | zero => simp [getf2_pivot_scan]
  | succ l ih =>
    simp only [getf2_pivot_scan]
    split_ifs
    · omega
    · exact ih

/-- The scan returns an index not beyond the last candidate. -/
lemma getf2_pivot_scan_le {α : Type} [LinearOrderedField α] (col : Nat → α) (k l : Nat) :
    getf2_pivot_scan col k l ≤ k + l := by
  induction l with
  | zero => simp [getf2_pivot_scan]
  | succ l ih =>
    simp only [getf2_pivot_scan]
    split_ifs
    · omega
    · omega

/-- The scan returns an entry of maximum absolute value among the candidates. -/
lemma getf2_pivot_scan_max {α : Type} [LinearOrderedField α] (col : Nat → α) (k l : Nat) :
    ∀ i, k ≤ i → i ≤ k + l → |col i| ≤ |col (getf2_pivot_scan col k l)| := by
  induction l with
  | zero =>
    intro i h1 h2
    have : i = k := by omega
    subst this
    simp [getf2_pivot_scan]
  | succ l ih =>
    intro i h1 h2
    simp only [getf2_pivot_scan]
    split_ifs with h
    · by_cases hi : i = k + l + 1
      · subst hi
        exact le_refl _
      · exact le_trans (ih i h1 (by omega)) (le_of_lt h)
    · by_cases hi : i = k + l + 1
      · subst hi
        exact not_lt.mp h
      · exact ih i h1 (by omega)

/-- When the maximum found is zero, the scan has returned its start: the lowest index. -/
lemma getf2_pivot_scan_eq_start_of_zero {α : Type} [LinearOrderedField α] (col : Nat → α)
    (k l : Nat) (h0 : |col (getf2_pivot_scan col k l)| = 0) :
    getf2_pivot_scan col k l = k := by
  induction l with
  | zero => simp [getf2_pivot_scan]
  | succ l ih =>
    simp only [getf2_pivot_scan] at h0 ⊢
    split_ifs at h0 ⊢ with h
    · have h1 : (0 : α) ≤ |col (getf2_pivot_scan col k l)| := abs_nonneg _
      rw [h0] at h
      exact absurd (lt_of_le_of_lt h1 h) (lt_irrefl _)
    · exact ih h0

/-- The pivot row of step `k` lies in `[k, m)`. -/
lemma getf2_find_pivot_mem {α : Type} [LinearOrderedField α] (A : Mat α) (m k : Nat)
    (hk : k < m) : k ≤ getf2_find_pivot A m k ∧ getf2_find_pivot A m k < m := by
  unfold getf2_find_pivot
  have h1 := getf2_pivot_scan_ge (fun i => A i k) k (m - 1 - k)
  have h2 := getf2_pivot_scan_le (fun i => A i k) k (m - 1 - k)
  omega

/-- The pivot row of step `k` holds the maximum absolute value of column `k` among the
rows `[k, m)`. -/
lemma getf2_find_pivot_max {α : Type} [LinearOrderedField α] (A : Mat α) (m k : Nat)
    (i : Nat) (h1 : k ≤ i) (h2 : i < m) :
    |A i k| ≤ |A (getf2_find_pivot A m k) k| :=
  getf2_pivot_scan_max (fun i => A i k) k (m - 1 - k) i h1 (by omega)

/-- The maximum found by the pivot search of step `k` is exactly zero if and only if the
column `k` is zero in the rows `[k, m)`. -/
lemma getf2_pivot_zero_iff {α : Type} [LinearOrderedField α] (A : Mat α) (m k : Nat)
    (hk : k < m) :
    |A (getf2_find_pivot A m k) k| = 0 ↔ zero_pivot_column A m k := by
  constructor
  · intro h0 i h1 h2
    have h := getf2_find_pivot_max A m k i h1 h2
    rw [h0] at h
    exact abs_eq_zero.mp (le_antisymm h (abs_nonneg _))
  · intro hz
    have hp := getf2_find_pivot_mem A m k hk
    rw [hz _ hp.1 hp.2]
    exact abs_zero

/-- On a zero column the pivot search returns the row `k` itself. -/
lemma getf2_find_pivot_eq_of_zero {α : Type} [LinearOrderedField α] (A : Mat α) (m k : Nat)
    (h0 : |A (getf2_find_pivot A m k) k| = 0) : getf2_find_pivot A m k = k :=
  getf2_pivot_scan_eq_start_of_zero (fun i => A i k) k (m - 1 - k) h0

/-! ## Pivot vector and `info` along the steps -/

/-- After `k` steps the pivot vector has `k` entries. -/
lemma getf2_iter_ipiv_length {α : Type} [LinearOrderedField α] (m n : Nat) (A : Mat α)
    (k : Nat) : (getf2_iter m n A k).ipiv.length = k := by
  induction k with
  | zero => simp [getf2_iter]
  | succ k ih =>
    simp only [getf2_iter, getf2_step]
    split_ifs <;> simp [ih]

/-- Step `k` appends the 1-based pivot row of step `k` to the pivot vector. -/
lemma getf2_iter_ipiv_succ {α : Type} [LinearOrderedField α] (m n : Nat) (A : Mat α)
    (k : Nat) :
    (getf2_iter m n A (k + 1)).ipiv
      = (getf2_iter m n A k).ipiv ++ [getf2_find_pivot (getf2_iter m n A k).A m k + 1] := by
  simp only [getf2_iter, getf2_step]
  split_ifs <;> rfl

/-- The entry `j` of the pivot vector is the 1-based pivot row of step `j`, and later steps
do not change it. -/
lemma getf2_iter_ipiv_get {α : Type} [LinearOrderedField α] (m n : Nat) (A : Mat α)
    (k j : Nat) (hj : j < k) :
    (getf2_iter m n A k).ipiv[j]?
      = some (getf2_find_pivot (getf2_iter m n A j).A m j + 1) := by
  induction k with
  | zero => omega
  | succ k ih =>
    rw [getf2_iter_ipiv_succ]
    by_cases hjk : j < k
    · rw [List.getElem?_append_left (by rw [getf2_iter_ipiv_length]; exact hjk)]
      exact ih hjk
    · have : j = k := by omega
      subst this
      rw [List.getElem?_append_right (by rw [getf2_iter_ipiv_length])]
      simp [getf2_iter_ipiv_length]

/-- The matrix after step `k`: unchanged on a zero pivot column, otherwise the interchange
followed by the elimination; `info` plays no part in it. -/
lemma getf2_iter_A_succ {α : Type} [LinearOrderedField α] (m n : Nat) (A : Mat α) (k : Nat) :
    (getf2_iter m n A (k + 1)).A
      = if |(getf2_iter m n A k).A (getf2_find_pivot (getf2_iter m n A k).A m k) k| = 0 then
          (getf2_iter m n A k).A
        else
          getf2_eliminate
            (swap_rows (getf2_iter m n A k).A k (getf2_find_pivot (getf2_iter m n A k).A m k))
            m n k := by
  simp only [getf2_iter, getf2_step]
  split_ifs <;> rfl

/-- The value of `info` after step `k`. -/
lemma getf2_iter_info_succ {α : Type} [LinearOrderedField α] (m n : Nat) (A : Mat α)
    (k : Nat) :
    (getf2_iter m n A (k + 1)).info
      = if |(getf2_iter m n A k).A (getf2_find_pivot (getf2_iter m n A k).A m k) k| = 0 then
          (if (getf2_iter m n A k).info = 0 then k + 1 else (getf2_iter m n A k).info)
        else (getf2_iter m n A k).info := by
  simp only [getf2_iter, getf2_step]
  split_ifs <;> rfl

/-- The characterisation of `info` after `k` steps: it is `0` exactly when no step so far
met a zero pivot column, and otherwise it is the 1-based index of the first such step. -/
lemma getf2_iter_info {α : Type} [LinearOrderedField α] (m n : Nat) (A : Mat α) (k : Nat)
    (hk : k ≤ m) :
    ((getf2_iter m n A k).info = 0 ↔
        ∀ j, j < k → ¬ zero_pivot_column (getf2_iter m n A j).A m j)
    ∧ ∀ j, j < k → zero_pivot_column (getf2_iter m n A j).A m j →
        (∀ i, i < j → ¬ zero_pivot_column (getf2_iter m n A i).A m i) →
        (getf2_iter m n A k).info = j + 1 := by
  induction k with
  | zero =>
    refine ⟨?_, ?_⟩
    · simp [getf2_iter]
    · intro j hj
      omega
  | succ k ih =>
    obtain ⟨ih1, ih2⟩ := ih (by omega)
    have hz := getf2_pivot_zero_iff (getf2_iter m n A k).A m k (by omega)
    rw [getf2_iter_info_succ]
    by_cases hzero : zero_pivot_column (getf2_iter m n A k).A m k
    · rw [if_pos (hz.2 hzero)]
      refine ⟨?_, ?_⟩
      · constructor
        · intro h
          by_cases h0 : (getf2_iter m n A k).info = 0
          · rw [if_pos h0] at h
            omega
          · rw [if_neg h0] at h
            exact absurd h h0
        · intro h
          exact absurd hzero (h k (by omega))
      · intro j hj hzj hfirst
        by_cases hjk : j = k
        · subst hjk
          rw [if_pos (ih1.2 hfirst)]
        · have hlt : j < k := by omega
          have hinfo := ih2 j hlt hzj hfirst
          rw [if_neg (by omega), hinfo]
    · rw [if_neg (fun h => hzero (hz.1 h))]
      refine ⟨?_, ?_⟩
      · rw [ih1]
        constructor
        · intro h j hj
          by_cases hjk : j = k
          · subst hjk
            exact hzero
          · exact h j (by omega)
        · intro h j hj
          exact h j (by omega)
      · intro j hj hzj hfirst
        have hjk : j ≠ k := by
          intro h
          subst h
          exact hzero hzj
        exact ih2 j (by omega) hzj hfirst

/-! ## The interchanges and the factors -/

/-- Interchanging a row with itself changes nothing. -/
lemma swap_rows_self {α : Type} (A : Mat α) (k : Nat) : swap_rows A k k = A := by
  funext i j
  unfold swap_rows
  split_ifs with h
  · rw [h]
  · rfl

/-- The interchanges of a pivot vector extended by one entry: those of the vector, then
the last one. -/
lemma apply_interchanges_append {α : Type} (l : List Nat) (p start : Nat) (A : Mat α) :
    apply_interchanges start (l ++ [p]) A
      = swap_rows (apply_interchanges start l A) (start + l.length) (p - 1) := by
  induction l generalizing start A with
  | nil => simp [apply_interchanges]
  | cons q qs ih =>
    rw [List.cons_append]
    simp only [apply_interchanges, List.length_cons]
    rw [ih]
    have hlen : start + 1 + qs.length = start + (qs.length + 1) := by omega
    rw [hlen]

/-- Before the first step the work matrix is the input. -/
lemma lu_invariant_zero {α : Type} [LinearOrderedField α] (m n : Nat) (A : Mat α) :
    lu_invariant m n 0 A A := by
  intro i _ j _
  simp

/-- The invariant is kept when the rows `k` and `p ≥ k` are interchanged in both matrices. -/
lemma lu_invariant_swap {α : Type} [LinearOrderedField α] (m n k p : Nat) (B A : Mat α)
    (hkm : k < m) (hkp : k ≤ p) (hpm : p < m) (h : lu_invariant m n k B A) :
    lu_invariant m n k (swap_rows B k p) (swap_rows A k p) := by
  intro i hi j hj
  have hU : ∀ t, t < k → getf2_U (swap_rows A k p) t j = getf2_U A t j := by
    intro t ht
    have h1 : t ≠ k := by omega
    have h2 : t ≠ p := by omega
    simp [getf2_U, swap_rows, h1, h2]
  by_cases hik : i = k
  · subst hik
    have hL : ∀ t, t < i → getf2_L (swap_rows A i p) i t = getf2_L A p t := by
      intro t ht
      have h1 : i ≠ t := by omega
      have h2 : p ≠ t := by omega
      have h3 : t < p := by omega
      simp [getf2_L, swap_rows, h1, h2, h3, ht]
    have hB : swap_rows B i p i j = B p j := by simp [swap_rows]
    have hA : swap_rows A i p i j = A p j := by simp [swap_rows]
    rw [hB, h p hpm j hj, hA]
    congr 1
    · apply Finset.sum_congr rfl
      intro t ht
      rw [Finset.mem_range] at ht
      rw [hL t ht, hU t ht]
    · simp [hkp]
  · by_cases hip : i = p
    · subst hip
      have hL : ∀ t, t < k → getf2_L (swap_rows A k i) i t = getf2_L A k t := by
        intro t ht
        have h1 : i ≠ t := by omega
        have h2 : k ≠ t := by omega
        have h3 : t < i := by omega
        simp [getf2_L, swap_rows, h1, h2, h3, ht, hik]
      have hB : swap_rows B k i i j = B k j := by simp [swap_rows, hik]
      have hA : swap_rows A k i i j = A k j := by simp [swap_rows, hik]
      rw [hB, h k hkm j hj, hA]
      congr 1
      · apply Finset.sum_congr rfl
        intro t ht
        rw [Finset.mem_range] at ht
        rw [hL t ht, hU t ht]
      · simp [hkp]
    · have hL : ∀ t, getf2_L (swap_rows A k p) i t = getf2_L A i t := by
        intro t
        simp [getf2_L, swap_rows, hik, hip]
      have hB : swap_rows B k p i j = B i j := by simp [swap_rows, hik, hip]
      have hA : swap_rows A k p i j = A i j := by simp [swap_rows, hik, hip]
      rw [hB, h i hi j hj, hA]
      congr 1
      apply Finset.sum_congr rfl
      intro t ht
      rw [Finset.mem_range] at ht
      rw [hL t, hU t ht]

/-- One step of the factorization keeps the invariant: if `A'` agrees with `A` on the rows
up to `k` and on the columns before `k`, holds in column `k` multipliers `l` with
`l * A k k = A i k`, and in the trailing block `A i j - l * A k j`, then the invariant
for `k` and `A` gives the invariant for `k + 1` and `A'`. -/
lemma lu_invariant_succ {α : Type} [LinearOrderedField α] (m n k : Nat) (B A A' : Mat α)
    (hrow : ∀ i j, i ≤ k → A' i j = A i j)
    (hcol : ∀ i j, j < k → A' i j = A i j)
    (hmul : ∀ i, k < i → i < m → A' i k * A k k = A i k)
    (hupd : ∀ i j, k < i → i < m → k < j → j < n → A' i j = A i j - A' i k * A k j)
    (h : lu_invariant m n k B A) : lu_invariant m n (k + 1) B A' := by
  intro i hi j hj
  rw [h i hi j hj, Finset.sum_range_succ]
  have hsum : ∑ t ∈ Finset.range k, getf2_L A i t * getf2_U A t j
      = ∑ t ∈ Finset.range k, getf2_L A' i t * getf2_U A' t j := by
    apply Finset.sum_congr rfl
    intro t ht
    rw [Finset.mem_range] at ht
    have h1 : getf2_L A' i t = getf2_L A i t := by
      simp only [getf2_L]
      rw [hcol i t ht]
    have h2 : getf2_U A' t j = getf2_U A t j := by
      simp only [getf2_U]
      rw [hrow t j (by omega)]
    rw [h1, h2]
  rw [hsum, add_assoc]
  congr 1
  have hUk : getf2_U A' k j = getf2_U A k j := by
    simp only [getf2_U]
    rw [hrow k j (le_refl k)]
  rw [hUk]
  rcases Nat.lt_trichotomy i k with hik | hik | hik
  · have h1 : ¬ (k ≤ i ∧ k ≤ j) := by omega
    have h2 : ¬ (k + 1 ≤ i ∧ k + 1 ≤ j) := by omega
    have h3 : i ≠ k := by omega
    have h4 : ¬ k < i := by omega
    simp [getf2_L, h1, h2, h3, h4]
  · subst hik
    have h2 : ¬ (i + 1 ≤ i ∧ i + 1 ≤ j) := by omega
    by_cases hij : i ≤ j
    · simp [getf2_L, getf2_U, h2, hij]
    · simp [getf2_L, getf2_U, h2, hij]
  · have h3 : i ≠ k := by omega
    have hL : getf2_L A' i k = A' i k := by simp [getf2_L, h3, hik]
    rw [hL]
    rcases Nat.lt_trichotomy j k with hjk | hjk | hjk
    · have h1 : ¬ (k ≤ i ∧ k ≤ j) := by omega
      have h2 : ¬ (k + 1 ≤ i ∧ k + 1 ≤ j) := by omega
      have h4 : ¬ k ≤ j := by omega
      simp [getf2_U, h1, h2, h4]
    · subst hjk
      have h1 : j ≤ i ∧ j ≤ j := by omega
      have h2 : ¬ (j + 1 ≤ i ∧ j + 1 ≤ j) := by omega
      simp only [getf2_U, h1, h2, and_self, if_true, if_false, le_refl, add_zero]
      exact (hmul i hik hi).symm
    · have h1 : k ≤ i ∧ k ≤ j := by omega
      have h2 : k + 1 ≤ i ∧ k + 1 ≤ j := by omega
      have h4 : k ≤ j := by omega
      simp only [getf2_U, h1, h2, h4, and_self, if_true]
      rw [hupd i j hik hi hjk hj]
      ring

/-- The invariant holds after every step of the factorization: the input with the
interchanges recorded so far is the product of the factors computed so far plus the
block still to be factored. -/
lemma getf2_iter_invariant {α : Type} [LinearOrderedField α] (m n : Nat) (A : Mat α)
    (k : Nat) (hk : k ≤ min m n) :
    lu_invariant m n k (apply_interchanges 0 (getf2_iter m n A k).ipiv A)
      (getf2_iter m n A k).A := by
  induction k with
  | zero => exact lu_invariant_zero m n A
  | succ k ih =>
    have ih := ih (by omega)
    have hkm : k < m := by omega
    have hkn : k < n := by omega
    have hp := getf2_find_pivot_mem (getf2_iter m n A k).A m k hkm
    rw [getf2_iter_ipiv_succ, apply_interchanges_append, getf2_iter_ipiv_length,
      getf2_iter_A_succ, Nat.zero_add, Nat.add_sub_cancel]
    by_cases h0 : |(getf2_iter m n A k).A
        (getf2_find_pivot (getf2_iter m n A k).A m k) k| = 0
    · rw [if_pos h0, getf2_find_pivot_eq_of_zero _ m k h0, swap_rows_self]
      have hz := (getf2_pivot_zero_iff (getf2_iter m n A k).A m k hkm).1 h0
      apply lu_invariant_succ m n k _ (getf2_iter m n A k).A (getf2_iter m n A k).A _ _ _ _ ih
      · intro i j _
        rfl
      · intro i j _
        rfl
      · intro i hik hi
        rw [hz i (by omega) hi]
        simp
      · intro i j hik hi _ _
        rw [hz i (by omega) hi]
        simp
    · rw [if_neg h0]
      have hswap := lu_invariant_swap m n k (getf2_find_pivot (getf2_iter m n A k).A m k) _ _
        hkm hp.1 hp.2 ih
      have hpiv : swap_rows (getf2_iter m n A k).A k
          (getf2_find_pivot (getf2_iter m n A k).A m k) k k ≠ 0 := by
        intro h
        apply h0
        simp only [swap_rows, if_true] at h
        rw [h]
        exact abs_zero
      apply lu_invariant_succ m n k _ _ _ _ _ _ _ hswap
      · intro i j hik
        have h1 : ¬ (k < i ∧ i < m) := by omega
        simp only [getf2_eliminate, h1, if_false]
      · intro i j hjk
        have h1 : j ≠ k := by omega
        have h2 : ¬ (k < j ∧ j < n) := by omega
        simp only [getf2_eliminate, h1, h2, if_false, ite_self]
      · intro i hik hi
        have h1 : k < i ∧ i < m := ⟨hik, hi⟩
        simp only [getf2_eliminate, h1, and_self, if_true]
        exact div_mul_cancel₀ _ hpiv
      · intro i j hik hi hjk hj
        have h1 : k < i ∧ i < m := ⟨hik, hi⟩
        have h2 : k < j ∧ j < n := ⟨hjk, hj⟩
        have h3 : j ≠ k := by omega
        simp only [getf2_eliminate, h1, h2, h3, and_self, if_true, if_false]

/-- In exact arithmetic the factors reproduce the input: the input with the interchanges
of the pivot vector applied in order is `L * U`. -/
lemma getf2_reconstructs_input {α : Type} [LinearOrderedField α] (m n : Nat) (A : Mat α)
    (i : Nat) (hi : i < m) (j : Nat) (hj : j < n) :
    apply_interchanges 0 (getf2 m n A).ipiv A i j
      = ∑ t ∈ Finset.range (min m n),
          getf2_L (getf2 m n A).A i t * getf2_U (getf2 m n A).A t j := by
  have h := getf2_iter_invariant m n A (min m n) (le_refl _) i hi j hj
  have h1 : ¬ (min m n ≤ i ∧ min m n ≤ j) := by omega
  rw [if_neg h1, add_zero] at h
  exact h

/-! ## LU factorization: `info` and the pivot vector -/

/-- C13: in the unblocked LU factorization of an `m`-by-`n` matrix, `info` is `0` exactly
when no step `k < min(m,n)` meets a column `k` that is exactly zero in the rows
`k, ..., m - 1` (maximum absolute value zero); otherwise `info = k + 1` for the smallest
such step `k`, later zero pivots not overwriting it.  The factorization does not abort:
all `min(m,n)` steps write their pivot, and every step whose pivot column is not zero
interchanges and eliminates, whatever `info` holds by then. -/
theorem getf2_info_is_first_zero_pivot {α : Type} [LinearOrderedField α] (m n : Nat)
    (A : Mat α) :
    ((getf2 m n A).info = 0 ↔
        ∀ k, k < min m n → ¬ zero_pivot_column (getf2_iter m n A k).A m k)
    ∧ (∀ k, k < min m n → zero_pivot_column (getf2_iter m n A k).A m k →
        (∀ j, j < k → ¬ zero_pivot_column (getf2_iter m n A j).A m j) →
        (getf2 m n A).info = k + 1)
    ∧ (getf2 m n A).ipiv.length = min m n
    ∧ (∀ k, k < min m n → ¬ zero_pivot_column (getf2_iter m n A k).A m k →
        (getf2_iter m n A (k + 1)).A
          = getf2_eliminate
              (swap_rows (getf2_iter m n A k).A k
                (getf2_find_pivot (getf2_iter m n A k).A m k)) m n k) := by
  have hinfo := getf2_iter_info m n A (min m n) (Nat.min_le_left m n)
  refine ⟨hinfo.1, hinfo.2, getf2_iter_ipiv_length m n A (min m n), ?_⟩
  intro k hk hz
  have hkm : k < m := lt_of_lt_of_le hk (Nat.min_le_left m n)
  rw [getf2_iter_A_succ, if_neg]
  intro h0
  exact hz ((getf2_pivot_zero_iff (getf2_iter m n A k).A m k hkm).1 h0)

/-- An instance of `getf2_info_is_first_zero_pivot`: the first column of `exampleSingular`
is zero, so `info = 1`, although the pivot column of step 2 is zero as well. -/
theorem getf2_info_is_first_zero_pivot_witness :
    zero_pivot_column (getf2_iter 3 3 exampleSingular 2).A 3 2
    ∧ (getf2 3 3 exampleSingular).info = 0 + 1 := by
  refine ⟨?_, (getf2_info_is_first_zero_pivot 3 3 exampleSingular).2.1 0 (by norm_num) ?_
    (fun j hj => absurd hj (Nat.not_lt_zero j))⟩
  · intro i h1 h2
    have hi : i = 2 := by omega
    subst hi
    norm_num [getf2_iter, getf2_step, getf2_find_pivot, getf2_pivot_scan, exampleSingular,
      getf2_eliminate, swap_rows]
  · intro i _ h2
    interval_cases i <;> simp [getf2_iter, exampleSingular]

/-- C14: the pivot vector of the unblocked LU factorization of an `m`-by-`n` matrix has
length `min(m,n)`.  Its entry for step `k` (0-based; `i = k + 1` in the 1-based numbering
of the header) is a 1-based row index `p` with `k + 1 ≤ p ≤ m`, and row `p` holds the
maximum absolute value of column `k` among the rows `k, ..., m - 1` of the matrix at that
step.  Applying the interchanges row `i` with row `ipiv[i]` in the order
`i = 1, 2, ..., min(m,n)` to the input gives the permuted matrix that the factors
reproduce: it equals `L * U` (exact arithmetic). -/
theorem getf2_pivot_vector {α : Type} [LinearOrderedField α] (m n : Nat) (A : Mat α) :
    (getf2 m n A).ipiv.length = min m n
    ∧ (∀ k, k < min m n →
        ∃ p, (getf2 m n A).ipiv[k]? = some p ∧ k + 1 ≤ p ∧ p ≤ m
          ∧ ∀ i, k ≤ i → i < m →
              |(getf2_iter m n A k).A i k| ≤ |(getf2_iter m n A k).A (p - 1) k|)
    ∧ (∀ i, i < m → ∀ j, j < n →
        apply_interchanges 0 (getf2 m n A).ipiv A i j
          = ∑ t ∈ Finset.range (min m n),
              getf2_L (getf2 m n A).A i t * getf2_U (getf2 m n A).A t j) := by
  refine ⟨getf2_iter_ipiv_length m n A (min m n), ?_, ?_⟩
  · intro k hk
    have hkm : k < m := lt_of_lt_of_le hk (Nat.min_le_left m n)
    have hp := getf2_find_pivot_mem (getf2_iter m n A k).A m k hkm
    refine ⟨getf2_find_pivot (getf2_iter m n A k).A m k + 1,
      getf2_iter_ipiv_get m n A (min m n) k hk, by omega, by omega, ?_⟩
    intro i h1 h2
    rw [Nat.add_sub_cancel]
    exact getf2_find_pivot_max (getf2_iter m n A k).A m k i h1 h2
  · intro i hi j hj
    exact getf2_reconstructs_input m n A i hi j hj

/-- An instance of `getf2_pivot_vector`: the first pivot of `exampleRegular` is row 3, whose
entry 4 is the largest of the first column, and the pivot vector is `[3, 2, 3]`. -/
theorem getf2_pivot_vector_witness :
    (getf2 3 3 exampleRegular).ipiv = [3, 2, 3]
    ∧ ∃ p, (getf2 3 3 exampleRegular).ipiv[0]? = some p ∧ 0 + 1 ≤ p ∧ p ≤ 3
        ∧ ∀ i, 0 ≤ i → i < 3 →
            |(getf2_iter 3 3 exampleRegular 0).A i 0|
              ≤ |(getf2_iter 3 3 exampleRegular 0).A (p - 1) 0| :=
  ⟨by norm_num [getf2, getf2_iter, getf2_step, getf2_find_pivot, getf2_pivot_scan,
      exampleRegular, getf2_eliminate, swap_rows],
    (getf2_pivot_vector 3 3 exampleRegular).2.1 0 (by norm_num)⟩

/-! ## Reflector application with `alpha = 0` -/

/-- C18: reflector application with `alpha = 0`, for either side and every `m`, `n`, `x`,
`incx` and `A`, and for any arithmetic on the element type: the matrix `A` is returned
exactly unchanged, and the result is the same for every other contents `x'` of the
vector. -/
theorem larf_zero_alpha_is_identity {α : Type} [Zero α] [Add α] [Sub α] [Mul α]
    [DecidableEq α] (side : rocblas_side) (m n : Nat) (x x' : Nat → α) (incx : Int)
    (A : Mat α) :
    larf side m n x incx 0 A = A
    ∧ larf side m n x incx 0 A = larf side m n x' incx 0 A := by
  simp [larf]

/-! ## Selection of the bad-argument test -/

/-- C21: on a size `{M, N}` and a store `{a, c, s, t, u}`, `ORMTR_UNMTR::run_tests` calls
`testing_ormtr_unmtr_bad_arg` exactly when the decoded arguments are `M = 0`, `N = 1`,
side `'L'`, trans `'T'` and uplo `'U'`, which is exactly when `size[0] = 0`, `size[1] = 1`,
`store[2] = 0`, `store[3] = 1` and `store[4] = 0`, whatever the codes `a` and `c` are.
The regular test `testing_ormtr_unmtr(arg)` is called for every tuple, and after the
bad-argument test when both are called. -/
theorem run_tests_selects_bad_arg_test (M N a c s t u : Int) :
    ∃ arg, ormtr_setup_arguments [M, N] [a, c, s, t, u] = some arg
      ∧ ((arg.M = 0 ∧ arg.N = 1 ∧ arg.side_option = 'L' ∧ arg.transA_option = 'T'
            ∧ arg.uplo_option = 'U') ↔ (M = 0 ∧ N = 1 ∧ s = 0 ∧ t = 1 ∧ u = 0))
      ∧ ORMTR_UNMTR.run_tests [M, N] [a, c, s, t, u]
          = some (if M = 0 ∧ N = 1 ∧ s = 0 ∧ t = 1 ∧ u = 0 then
              [TestCall.testing_ormtr_unmtr_bad_arg, TestCall.testing_ormtr_unmtr arg]
            else [TestCall.testing_ormtr_unmtr arg]) := by
  refine ⟨_, ormtr_setup_arguments_eq M N a c s t u, ?_, ?_⟩
  · by_cases hs : s = 0 <;> by_cases ht : t = 0 <;> by_cases ht1 : t = 1 <;>
      by_cases hu : u = 0 <;> simp [hs, ht, ht1, hu]
  · simp only [ORMTR_UNMTR.run_tests, ormtr_setup_arguments_eq, Option.bind_eq_bind,
      Option.some_bind, Option.pure_def]
    by_cases hs : s = 0 <;> by_cases ht : t = 0 <;> by_cases ht1 : t = 1 <;>
      by_cases hu : u = 0 <;> simp [hs, ht, ht1, hu]
    split_ifs <;> rfl

/-- C28: the tables have 9, 16 and 5 entries.  Among the 9 x 16 tuples of `checkin_lapack`
exactly one makes `run_tests` call the bad-argument test, the size `{0, 1}` with the store
`{0, 0, 0, 1, 0}`; among the 5 x 16 tuples of `daily_lapack` none does.  On every tuple
`run_tests` is defined. -/
theorem bad_arg_test_runs_once_in_checkin :
    size_range.length = 9 ∧ store.length = 16 ∧ large_size_range.length = 5
    ∧ checkin_lapack.length = 9 * 16
    ∧ checkin_lapack.filter runs_bad_arg_test = [([0, 1], [0, 0, 0, 1, 0])]
    ∧ daily_lapack.length = 5 * 16
    ∧ daily_lapack.filter runs_bad_arg_test = []
    ∧ (checkin_lapack ++ daily_lapack).all
        (fun tup => (ORMTR_UNMTR.run_tests tup.1 tup.2).isSome) = true := by
  refine ⟨rfl, rfl, rfl, rfl, by decide, rfl, by decide, by decide⟩

/-! ## Allocation check and scalars of `rocsolver_geqrf_batched_impl` -/

/-- When the allocation check of line 41 passes, the execution part goes on with the three
stores into `sca` and the copy of `sca` to the scalars buffer. -/
lemma geqrf_batched_execution_of_allocation_ok (env : GeqrfEnv) (T : ElemType)
    (handle : Nat) (m n : Int) (A : Nat) (lda : Int) (ipiv : Nat) (stridep batch_count : Int)
    (hf : ¬ geqrf_allocation_failed (env.getMemorySize T m n batch_count)
      (geqrf_allocate env (env.getMemorySize T m n batch_count))) :
    ∃ rest,
      (geqrf_batched_execution env T handle m n A lda ipiv stridep batch_count).trace
        = geqrf_allocation_trace T m n batch_count (env.getMemorySize T m n batch_count)
            (geqrf_allocate env (env.getMemorySize T m n batch_count))
          ++ [ Event.sca_store (env.getMemorySize T m n batch_count).size_1 0 (-1),
               Event.sca_store (env.getMemorySize T m n batch_count).size_1 1 0,
               Event.sca_store (env.getMemorySize T m n batch_count).size_1 2 1,
               Event.hipMemcpy
                 (geqrf_allocate env (env.getMemorySize T m n batch_count)).scalars
                 (geqrf_sca (env.getMemorySize T m n batch_count).size_1)
                 ((T.sizeof * (env.getMemorySize T m n batch_count).size_1) % SIZE_T_MOD)
                 (env.hipMemcpy
                   (geqrf_allocate env (env.getMemorySize T m n batch_count)).scalars
                   (geqrf_sca (env.getMemorySize T m n batch_count).size_1)
                   ((T.sizeof * (env.getMemorySize T m n batch_count).size_1)
                     % SIZE_T_MOD)) ]
          ++ rest
      ∧ ∀ e ∈ rest, e.isScaStore = false := by
  unfold geqrf_batched_execution
  simp only [hf, if_false]
  split_ifs
  · exact ⟨[], by simp, by simp⟩
  · exact ⟨_, rfl, by simp [Event.isScaStore]⟩

/-- The host vector `sca` has `size_1` elements. -/
lemma geqrf_sca_length (size_1 : Nat) : (geqrf_sca size_1).length = size_1 := by
  simp [geqrf_sca]

/-- With at least three elements, the host vector `sca` starts with `-1, 0, 1`. -/
lemma geqrf_sca_constants (size_1 : Nat) (h : 3 ≤ size_1) :
    (geqrf_sca size_1)[0]? = some (-1) ∧ (geqrf_sca size_1)[1]? = some 0
      ∧ (geqrf_sca size_1)[2]? = some 1 := by
  obtain ⟨k, rfl⟩ : ∃ k, size_1 = k + 3 := ⟨size_1 - 3, by omega⟩
  simp [geqrf_sca, List.replicate_succ]

/-- A store event that is not a store into `sca` is within bounds by convention. -/
lemma Event.storeInBounds_of_not_isScaStore (e : Event) (h : e.isScaStore = false) :
    e.storeInBounds = true := by
  cases e <;> simp_all [Event.isScaStore, Event.storeInBounds]

/-- C22: in `rocsolver_geqrf_batched_impl`, a call that passed the validation returns
memory-error right after the five allocations exactly when the scalars pointer is null, or
one of `work`, `workArr`, `diag`, `trfact` has a non-zero requested size and a null
pointer.  So a null pointer for a zero-size request of those four is no error, while a null
scalars pointer is one whatever `size_1` is.  On that return the template has not been
executed (nor anything copied or freed); otherwise the call goes on with the stores into
`sca`. -/
theorem geqrf_memory_error_after_allocations (env : GeqrfEnv) (T : ElemType) (handle : Nat)
    (m n : Int) (A : Nat) (lda : Int) (ipiv : Nat) (stridep batch_count : Int)
    (hv : geqrf_batched_validation handle m n A lda ipiv batch_count = none) :
    let sz := env.getMemorySize T m n batch_count
    let w := geqrf_allocate env sz
    let r := rocsolver_geqrf_batched_impl env T handle m n A lda ipiv stridep batch_count
    (r = ⟨rocblas_status_memory_error, geqrf_allocation_trace T m n batch_count sz w⟩ ↔
      (w.scalars = 0 ∨ (sz.size_2 ≠ 0 ∧ w.work = 0) ∨ (sz.size_3 ≠ 0 ∧ w.workArr = 0)
        ∨ (sz.size_4 ≠ 0 ∧ w.diag = 0) ∨ (sz.size_5 ≠ 0 ∧ w.trfact = 0)))
    ∧ (r = ⟨rocblas_status_memory_error, geqrf_allocation_trace T m n batch_count sz w⟩ →
        ∀ e ∈ r.trace, e.isTemplate = false ∧ e.isScalarInit = false ∧ e.isFree = false)
    ∧ (r ≠ ⟨rocblas_status_memory_error, geqrf_allocation_trace T m n batch_count sz w⟩ →
        ∃ rest, r.trace = geqrf_allocation_trace T m n batch_count sz w
          ++ Event.sca_store sz.size_1 0 (-1) :: rest) := by
  intro sz w r
  have hx : r = geqrf_batched_execution env T handle m n A lda ipiv stridep batch_count :=
    rocsolver_geqrf_batched_impl_of_valid env T handle m n A lda ipiv stridep batch_count hv
  have hiff : r = ⟨rocblas_status_memory_error,
      geqrf_allocation_trace T m n batch_count sz w⟩ ↔ geqrf_allocation_failed sz w := by
    constructor
    · intro h
      by_contra hf
      obtain ⟨rest, htr, _⟩ := geqrf_batched_execution_of_allocation_ok env T handle m n A
        lda ipiv stridep batch_count hf
      rw [← hx, h] at htr
      have hlen := congrArg List.length htr
      simp at hlen
    · intro hf
      rw [hx]
      exact geqrf_batched_execution_of_allocation_failed env T handle m n A lda ipiv stridep
        batch_count hf
  refine ⟨hiff, ?_, ?_⟩
  · intro h
    rw [h]
    simp [geqrf_allocation_trace, Event.isTemplate, Event.isScalarInit, Event.isFree]
  · intro h
    have hf : ¬ geqrf_allocation_failed sz w := fun hf => h (hiff.2 hf)
    obtain ⟨rest, htr, _⟩ := geqrf_batched_execution_of_allocation_ok env T handle m n A
      lda ipiv stridep batch_count hf
    rw [hx, htr]
    exact ⟨[ Event.sca_store sz.size_1 1 0,
             Event.sca_store sz.size_1 2 1,
             Event.hipMemcpy w.scalars (geqrf_sca sz.size_1)
               ((T.sizeof * sz.size_1) % SIZE_T_MOD)
               (env.hipMemcpy w.scalars (geqrf_sca sz.size_1)
                 ((T.sizeof * sz.size_1) % SIZE_T_MOD)) ] ++ rest,
      by simp [sz, w]⟩

/-- Two instances of `geqrf_memory_error_after_allocations`: a planner that asks for
nothing gets a null scalars pointer for `size_1 = 0`, and the call returns memory-error;
a planner that asks for the scalars only gets null pointers for the four zero-size
requests, and the call does not return memory-error. -/
theorem geqrf_memory_error_after_allocations_witness :
    rocsolver_geqrf_batched_impl geqrfEnvZeroSizes .float 1 4 3 4096 4 8192 3 2
        = ⟨rocblas_status_memory_error,
            geqrf_allocation_trace .float 4 3 2 ⟨0, 0, 0, 0, 0⟩ ⟨0, 0, 0, 0, 0⟩⟩
    ∧ rocsolver_geqrf_batched_impl geqrfEnvScalarsOnly .float 1 4 3 4096 4 8192 3 2
        ≠ ⟨rocblas_status_memory_error,
            geqrf_allocation_trace .float 4 3 2 ⟨3, 0, 0, 0, 0⟩ ⟨4096, 0, 0, 0, 0⟩⟩ :=
  ⟨(geqrf_memory_error_after_allocations geqrfEnvZeroSizes .float 1 4 3 4096 4 8192 3 2
      (by decide)).1.2 (by decide),
    fun h =>
      absurd
        ((geqrf_memory_error_after_allocations geqrfEnvScalarsOnly .float 1 4 3 4096 4 8192
          3 2 (by decide)).1.1 h)
        (by decide)⟩

/-- C23: in a call of `rocsolver_geqrf_batched_impl` that reaches line 46, for every element
type, the stores into the host vector are `sca[0] = -1`, `sca[1] = 0`, `sca[2] = 1`, in
that order, and the vector is then copied to the scalars buffer.  The three stores are
within the bounds of the `size_1`-element vector exactly when `size_1 ≥ 3`, and then the
vector holds `-1, 0, 1` at the indices `0, 1, 2`; with `size_1 = 3` (the documented
assumption) the stores are in bounds and the vector is `[-1, 0, 1]`. -/
theorem geqrf_scalars_host_array (env : GeqrfEnv) (T : ElemType) (handle : Nat)
    (m n : Int) (A : Nat) (lda : Int) (ipiv : Nat) (stridep batch_count : Int)
    (hv : geqrf_batched_validation handle m n A lda ipiv batch_count = none)
    (hf : ¬ geqrf_allocation_failed (env.getMemorySize T m n batch_count)
      (geqrf_allocate env (env.getMemorySize T m n batch_count))) :
    let sz := env.getMemorySize T m n batch_count
    let w := geqrf_allocate env sz
    let r := rocsolver_geqrf_batched_impl env T handle m n A lda ipiv stridep batch_count
    r.trace.filter Event.isScaStore
        = [ Event.sca_store sz.size_1 0 (-1), Event.sca_store sz.size_1 1 0,
            Event.sca_store sz.size_1 2 1 ]
    ∧ Event.hipMemcpy w.scalars (geqrf_sca sz.size_1) ((T.sizeof * sz.size_1) % SIZE_T_MOD)
          (env.hipMemcpy w.scalars (geqrf_sca sz.size_1)
            ((T.sizeof * sz.size_1) % SIZE_T_MOD)) ∈ r.trace
    ∧ ((∀ e ∈ r.trace, e.storeInBounds = true) ↔ 3 ≤ sz.size_1)
    ∧ (3 ≤ sz.size_1 →
        (geqrf_sca sz.size_1)[0]? = some (-1) ∧ (geqrf_sca sz.size_1)[1]? = some 0
          ∧ (geqrf_sca sz.size_1)[2]? = some 1)
    ∧ (sz.size_1 = 3 →
        geqrf_sca sz.size_1 = [-1, 0, 1] ∧ ∀ e ∈ r.trace, e.storeInBounds = true) := by
  intro sz w r
  have hx : r = geqrf_batched_execution env T handle m n A lda ipiv stridep batch_count :=
    rocsolver_geqrf_batched_impl_of_valid env T handle m n A lda ipiv stridep batch_count hv
  obtain ⟨rest, htr, hrest⟩ := geqrf_batched_execution_of_allocation_ok env T handle m n A
    lda ipiv stridep batch_count hf
  have hrest' : rest.filter Event.isScaStore = [] := by
    rw [List.filter_eq_nil_iff]
    intro e he
    simp [hrest e he]
  have hbounds : (∀ e ∈ r.trace, e.storeInBounds = true) ↔ 3 ≤ sz.size_1 := by
    rw [hx, htr]
    constructor
    · intro h
      have h2 := h (Event.sca_store (env.getMemorySize T m n batch_count).size_1 2 1)
        (by simp)
      simpa [Event.storeInBounds] using h2
    · intro h3 e he
      simp only [List.mem_append, List.mem_cons, List.mem_singleton, List.not_mem_nil,
        or_false, geqrf_allocation_trace] at he
      rcases he with (he | he) | he
      · rcases he with he | he | he | he | he | he <;> subst he <;> rfl
      · have h0 : 0 < sz.size_1 := by omega
        have h1 : 1 < sz.size_1 := by omega
        have h2 : 2 < sz.size_1 := by omega
        rcases he with he | he | he | he <;> subst he <;>
          simp [Event.storeInBounds, sz, h0, h1, h2]
      · exact Event.storeInBounds_of_not_isScaStore e (hrest e he)
  refine ⟨?_, ?_, hbounds, geqrf_sca_constants sz.size_1, ?_⟩
  · rw [hx, htr, List.filter_append, List.filter_append, hrest']
    simp [geqrf_allocation_trace, List.filter, Event.isScaStore]
  · rw [hx, htr]
    simp
  · intro h3
    refine ⟨?_, hbounds.2 (by omega)⟩
    rw [h3]
    rfl

/-- An instance of `geqrf_scalars_host_array`: with `size_1 = 3` the vector copied to the
scalars buffer is `[-1, 0, 1]`. -/
theorem geqrf_scalars_host_array_witness :
    geqrf_sca (geqrfEnvOk.getMemorySize .double 4 3 2).size_1 = [-1, 0, 1]
    ∧ ∀ e ∈ (rocsolver_geqrf_batched_impl geqrfEnvOk .double 1 4 3 4096 4 8192 3 2).trace,
        e.storeInBounds = true :=
  (geqrf_scalars_host_array geqrfEnvOk .double 1 4 3 4096 4 8192 3 2 (by decide)
    (by decide)).2.2.2.2 (by decide)

/-- The copy of the scalars exceeds their allocation whenever the planner asks for a
non-empty scalars buffer: `size_1` bytes are allocated, `sizeof(T) * size_1` are copied. -/
lemma geqrf_scalars_copy_exceeds_allocation (T : ElemType) (size_1 : Nat) (h0 : 0 < size_1)
    (hno : T.sizeof * size_1 < SIZE_T_MOD) :
    size_1 < (T.sizeof * size_1) % SIZE_T_MOD := by
  rw [Nat.mod_eq_of_lt hno]
  have h4 : 4 ≤ T.sizeof := by cases T <;> simp [ElemType.sizeof]
  nlinarith

/-- C24: the code copies more bytes into the scalars buffer than it allocated for it.  On
a valid 4-by-3 call with 2 matrices and the planner's `size_1 = 3`, the buffer `4096` is
allocated with 3 bytes, and the copy into it has 12 bytes for `float`, 24 for `double` and
`rocblas_float_complex`, 48 for `rocblas_double_complex`. -/
theorem geqrf_scalars_copy_overruns_buffer :
    allocatedBytes
        (rocsolver_geqrf_batched_impl geqrfEnvOk .float 1 4 3 4096 4 8192 3 2).trace 4096
      = some 3
    ∧ copiedBytes
        (rocsolver_geqrf_batched_impl geqrfEnvOk .float 1 4 3 4096 4 8192 3 2).trace 4096
      = some 12
    ∧ copiedBytes
        (rocsolver_geqrf_batched_impl geqrfEnvOk .double 1 4 3 4096 4 8192 3 2).trace 4096
      = some 24
    ∧ copiedBytes
        (rocsolver_geqrf_batched_impl geqrfEnvOk .rocblas_float_complex 1 4 3 4096 4 8192 3
          2).trace 4096
      = some 24
    ∧ copiedBytes
        (rocsolver_geqrf_batched_impl geqrfEnvOk .rocblas_double_complex 1 4 3 4096 4 8192 3
          2).trace 4096
      = some 48 := by
  decide

/-- C25: on the path of `rocsolver_geqrf_batched_impl` where the validation passes, the
allocation check passes and the scalars copy succeeds, the template is invoked exactly
once, with matrix shift `0` and `strideA = 0` and with `m`, `n`, `A`, `lda`, `ipiv`,
`stridep` and `batch_count` as passed to the wrapper; after it the five buffers are freed
once each, in the order of their declaration; the call returns the template's status. -/
theorem geqrf_success_path (env : GeqrfEnv) (T : ElemType) (handle : Nat)
    (m n : Int) (A : Nat) (lda : Int) (ipiv : Nat) (stridep batch_count : Int)
    (hv : geqrf_batched_validation handle m n A lda ipiv batch_count = none)
    (hf : ¬ geqrf_allocation_failed (env.getMemorySize T m n batch_count)
      (geqrf_allocate env (env.getMemorySize T m n batch_count)))
    (hc : env.hipMemcpy (geqrf_allocate env (env.getMemorySize T m n batch_count)).scalars
      (geqrf_sca (env.getMemorySize T m n batch_count).size_1)
      ((T.sizeof * (env.getMemorySize T m n batch_count).size_1) % SIZE_T_MOD) = 0) :
    let w := geqrf_allocate env (env.getMemorySize T m n batch_count)
    let r := rocsolver_geqrf_batched_impl env T handle m n A lda ipiv stridep batch_count
    let args : GeqrfTemplateArgs :=
      { handle := handle, m := m, n := n, A := A, shiftA := 0, lda := lda, strideA := 0,
        ipiv := ipiv, stridep := stridep, batch_count := batch_count,
        scalars := w.scalars, work := w.work, workArr := w.workArr, diag := w.diag,
        trfact := w.trfact }
    r.status = env.template T args
    ∧ r.trace.filter Event.isTemplate = [Event.rocsolver_geqrf_template args]
    ∧ r.trace.filter Event.isFree
        = [ Event.hipFree w.scalars, Event.hipFree w.work, Event.hipFree w.workArr,
            Event.hipFree w.diag, Event.hipFree w.trfact ]
    ∧ ∃ before, r.trace
        = before ++
          [ Event.rocsolver_geqrf_template args, Event.hipFree w.scalars,
            Event.hipFree w.work, Event.hipFree w.workArr, Event.hipFree w.diag,
            Event.hipFree w.trfact ] := by
  intro w r args
  have hx : r = geqrf_batched_execution env T handle m n A lda ipiv stridep batch_count :=
    rocsolver_geqrf_batched_impl_of_valid env T handle m n A lda ipiv stridep batch_count hv
  rw [hx, geqrf_batched_execution_of_copy_ok env T handle m n A lda ipiv stridep
    batch_count hf hc]
  refine ⟨rfl, ?_, ?_, ⟨_, rfl⟩⟩
  · simp [geqrf_allocation_trace, List.filter, Event.isTemplate, args, w]
  · simp [geqrf_allocation_trace, List.filter, Event.isFree, w]

/-- An instance of `geqrf_success_path`: a 4-by-3 call with 2 matrices returns the
template's status, having run the template once on the forwarded arguments. -/
theorem geqrf_success_path_witness :
    (rocsolver_geqrf_batched_impl geqrfEnvOk .float 1 4 3 4096 4 8192 3 2).status
        = geqrfEnvOk.template .float
            ⟨1, 4, 3, 4096, 0, 4, 0, 8192, 3, 2, 4096, 4097, 4098, 4099, 4100⟩
    ∧ (rocsolver_geqrf_batched_impl geqrfEnvOk .float 1 4 3 4096 4 8192 3 2).trace.filter
          Event.isTemplate
        = [Event.rocsolver_geqrf_template
            ⟨1, 4, 3, 4096, 0, 4, 0, 8192, 3, 2, 4096, 4097, 4098, 4099, 4100⟩] :=
  have h := geqrf_success_path geqrfEnvOk .float 1 4 3 4096 4 8192 3 2 (by decide)
    (by decide) (by decide)
  ⟨h.1, h.2.1⟩

/-! ## Rejected arguments and the normal path of `rocsolver_gebd2_strided_batched_impl` -/

/-- C26: in `rocsolver_gebd2_strided_batched_impl` with a non-null handle, when the
argument check returns a status `st` other than `continue` the call returns exactly `st`
and its trace ends with the argument check: no workspace size is computed, queried or
allocated and the template is not executed.  When the argument check returns `continue`
the wrapper rejects nothing itself: whatever the sizes and pointers are, it goes on to
the workspace sizing. -/
theorem gebd2_returns_rejected_status (env : Gebd2Env) (T : ElemType)
    (handle : Nat) (m n : Int) (A : Nat) (lda strideA : Int) (D : Nat) (strideD : Int)
    (E : Nat) (strideE : Int) (tauq : Nat) (strideQ : Int) (taup : Nat) (strideP : Int)
    (batch_count : Int) (hh : handle ≠ 0) :
    let chk : Gebd2ArgCheckArgs := ⟨handle, m, n, lda, A, D, E, tauq, taup, batch_count⟩
    let r := rocsolver_gebd2_strided_batched_impl env T handle m n A lda strideA D strideD E
      strideE tauq strideQ taup strideP batch_count
    (env.argCheck chk ≠ rocblas_status_continue →
      r = ⟨env.argCheck chk,
            [ Event.ROCSOLVER_ENTER_TOP m n lda strideA strideP batch_count,
              Event.rocsolver_gebd2_gebrd_argCheck chk (env.argCheck chk) ]⟩
      ∧ ∀ e ∈ r.trace, e.isSizing = false ∧ e.isAlloc = false ∧ e.isScalarInit = false
          ∧ e.isTemplate = false)
    ∧ (env.argCheck chk = rocblas_status_continue →
        ∃ rest, r.trace
          = [ Event.ROCSOLVER_ENTER_TOP m n lda strideA strideP batch_count,
              Event.rocsolver_gebd2_gebrd_argCheck chk rocblas_status_continue,
              Event.rocsolver_gebd2_getMemorySize T m n batch_count
                (env.getMemorySize T m n batch_count) ] ++ rest) := by
  intro chk r
  refine ⟨?_, ?_⟩
  · intro hc
    have hr : r = ⟨env.argCheck chk,
            [ Event.ROCSOLVER_ENTER_TOP m n lda strideA strideP batch_count,
              Event.rocsolver_gebd2_gebrd_argCheck chk (env.argCheck chk) ]⟩ := by
      simp only [chk] at hc
      simp [r, chk, rocsolver_gebd2_strided_batched_impl, hh, hc]
    refine ⟨hr, ?_⟩
    rw [hr]
    simp [Event.isSizing, Event.isAlloc, Event.isScalarInit, Event.isTemplate]
  · intro hc
    simp only [chk] at hc
    simp only [r, chk, rocsolver_gebd2_strided_batched_impl, hh, if_false, hc, ne_eq,
      not_true_eq_false]
    cases hq : env.is_device_memory_size_query handle
    · cases hmem : env.device_malloc handle (env.getMemorySize T m n batch_count).size_scalars
          (env.getMemorySize T m n batch_count).size_work_workArr
          (env.getMemorySize T m n batch_count).size_Abyx_norms with
      | none => exact ⟨_, by simp; rfl⟩
      | some p =>
        obtain ⟨p0, p1, p2⟩ := p
        exact ⟨_, by simp; rfl⟩
    · exact ⟨_, by simp; rfl⟩

/-- An instance of `gebd2_returns_rejected_status`: a negative `m` is rejected by the
argument checker with invalid-size, which the wrapper returns. -/
theorem gebd2_returns_rejected_status_witness :
    rocsolver_gebd2_strided_batched_impl gebd2EnvOk .float 1 (-4) 3 4096 4 12 8192 3 12288 2
        16384 3 20480 3 2
      = ⟨rocblas_status_invalid_size,
          [ Event.ROCSOLVER_ENTER_TOP (-4) 3 4 12 3 2,
            Event.rocsolver_gebd2_gebrd_argCheck
              ⟨1, -4, 3, 4, 4096, 8192, 12288, 16384, 20480, 2⟩
              rocblas_status_invalid_size ]⟩ :=
  ((gebd2_returns_rejected_status gebd2EnvOk .float 1 (-4) 3 4096 4 12 8192 3 12288 2
    16384 3 20480 3 2 (by decide)).1 (by decide)).1

/-- C27: on the normal path of `rocsolver_gebd2_strided_batched_impl` (non-null handle,
argument check `continue`, no size query, allocation succeeded) the trace is the entry
log, the argument check, the sizing, the query test, the allocation, then
`init_scalars` if and only if `size_scalars > 0`, then one call of the template.  The
template gets `shiftA = 0` and `m`, `n`, `A`, `lda`, `strideA`, `D`, `strideD`, `E`,
`strideE`, `tauq`, `strideQ`, `taup`, `strideP`, `batch_count` as passed to the wrapper,
and the three buffers of the allocation; the call returns the template's status. -/
theorem gebd2_normal_path (env : Gebd2Env) (T : ElemType)
    (handle : Nat) (m n : Int) (A : Nat) (lda strideA : Int) (D : Nat) (strideD : Int)
    (E : Nat) (strideE : Int) (tauq : Nat) (strideQ : Int) (taup : Nat) (strideP : Int)
    (batch_count : Int) (scalars work_workArr Abyx_norms : Nat)
    (hh : handle ≠ 0)
    (hc : env.argCheck ⟨handle, m, n, lda, A, D, E, tauq, taup, batch_count⟩
      = rocblas_status_continue)
    (hq : env.is_device_memory_size_query handle = false)
    (hmem : env.device_malloc handle (env.getMemorySize T m n batch_count).size_scalars
        (env.getMemorySize T m n batch_count).size_work_workArr
        (env.getMemorySize T m n batch_count).size_Abyx_norms
      = some (scalars, work_workArr, Abyx_norms)) :
    let sz := env.getMemorySize T m n batch_count
    let r := rocsolver_gebd2_strided_batched_impl env T handle m n A lda strideA D strideD E
      strideE tauq strideQ taup strideP batch_count
    let args : Gebd2TemplateArgs :=
      { handle := handle, m := m, n := n, A := A, shiftA := 0, lda := lda,
        strideA := strideA, D := D, strideD := strideD, E := E, strideE := strideE,
        tauq := tauq, strideQ := strideQ, taup := taup, strideP := strideP,
        batch_count := batch_count, scalars := scalars, work_workArr := work_workArr,
        Abyx_norms := Abyx_norms }
    r = ⟨env.template T args,
          [ Event.ROCSOLVER_ENTER_TOP m n lda strideA strideP batch_count,
            Event.rocsolver_gebd2_gebrd_argCheck
              ⟨handle, m, n, lda, A, D, E, tauq, taup, batch_count⟩ rocblas_status_continue,
            Event.rocsolver_gebd2_getMemorySize T m n batch_count sz,
            Event.rocblas_is_device_memory_size_query handle false,
            Event.rocblas_device_malloc handle sz.size_scalars sz.size_work_workArr
              sz.size_Abyx_norms true ]
          ++ (if sz.size_scalars > 0 then [Event.init_scalars handle scalars] else [])
          ++ [Event.rocsolver_gebd2_template args]⟩
    ∧ (Event.init_scalars handle scalars ∈ r.trace ↔ sz.size_scalars > 0)
    ∧ r.trace.filter Event.isScalarInit
        = (if sz.size_scalars > 0 then [Event.init_scalars handle scalars] else [])
    ∧ r.trace.filter Event.isTemplate = [Event.rocsolver_gebd2_template args] := by
  intro sz r args
  have hr : r = ⟨env.template T args,
          [ Event.ROCSOLVER_ENTER_TOP m n lda strideA strideP batch_count,
            Event.rocsolver_gebd2_gebrd_argCheck
              ⟨handle, m, n, lda, A, D, E, tauq, taup, batch_count⟩ rocblas_status_continue,
            Event.rocsolver_gebd2_getMemorySize T m n batch_count sz,
            Event.rocblas_is_device_memory_size_query handle false,
            Event.rocblas_device_malloc handle sz.size_scalars sz.size_work_workArr
              sz.size_Abyx_norms true ]
          ++ (if sz.size_scalars > 0 then [Event.init_scalars handle scalars] else [])
          ++ [Event.rocsolver_gebd2_template args]⟩ := by
    simp [r, sz, args, rocsolver_gebd2_strided_batched_impl, hh, hc, hq, hmem]
  refine ⟨hr, ?_, ?_, ?_⟩
  · rw [hr]
    by_cases hs : sz.size_scalars > 0 <;> simp [hs]
  · rw [hr]
    by_cases hs : sz.size_scalars > 0 <;> simp [hs, List.filter, Event.isScalarInit]
  · rw [hr]
    by_cases hs : sz.size_scalars > 0 <;> simp [hs, List.filter, Event.isTemplate]

/-- An instance of `gebd2_normal_path`: a 4-by-3 call with 2 matrices of `float` allocates,
initialises the scalars (12 bytes are planned for them), runs the template once and
returns its status. -/
theorem gebd2_normal_path_witness :
    rocsolver_gebd2_strided_batched_impl gebd2EnvOk .float 1 4 3 4096 4 12 8192 3 12288 2
        16384 3 20480 3 2
      = ⟨rocblas_status_success,
          [ Event.ROCSOLVER_ENTER_TOP 4 3 4 12 3 2,
            Event.rocsolver_gebd2_gebrd_argCheck
              ⟨1, 4, 3, 4, 4096, 8192, 12288, 16384, 20480, 2⟩ rocblas_status_continue,
            Event.rocsolver_gebd2_getMemorySize .float 4 3 2 ⟨12, 6, 8⟩,
            Event.rocblas_is_device_memory_size_query 1 false,
            Event.rocblas_device_malloc 1 12 6 8 true,
            Event.init_scalars 1 4096,
            Event.rocsolver_gebd2_template
              ⟨1, 4, 3, 4096, 0, 4, 12, 8192, 3, 12288, 2, 16384, 3, 20480, 3, 2,
                4096, 8192, 12288⟩ ]⟩ :=
  (gebd2_normal_path gebd2EnvOk .float 1 4 3 4096 4 12 8192 3 12288 2 16384 3 20480 3 2
    4096 8192 12288 (by decide) (by decide) (by decide) (by decide)).1

end RocSolver
